import Mathlib

/-!
# LC709204F battery monitor driver: checksum and register transactions

A shallow embedding of `src/LC709204F.cpp` / `src/LC709204F.h`.

* `uint8_t`, `uint16_t`, `uint32_t` values are natural numbers, reduced `% 2^w` wherever the
  C++ code stores a wider intermediate result into the narrower type.
* A C array handed over as `pointer, len` is a `List Nat` (with an explicit offset where the
  code passes `buffer + k`).
* The `TwoWire` object is an external collaborator: a record of transition functions over an
  arbitrary bus state.  Every call the driver makes on it is appended to a log.
-/

namespace LC709204F

/-! ## Constants of `LC709204F.h` -/

/-- `#define LC709204F_I2CADDR 0x0B` -/
def LC709204F_I2CADDR : Nat := 0x0B

def LC709204F_REG_TIME_TO_EMPTY : Nat := 0x03
def LC709204F_REG_BEFORE_RSOC : Nat := 0x04
def LC709204F_REG_CELL_TEMPERATURE_TSENSE1 : Nat := 0x08
def LC709204F_REG_CELL_VOLTAGE : Nat := 0x09
def LC709204F_REG_APA : Nat := 0x0B
def LC709204F_REG_CHANGE_OF_THE_PARAMETER : Nat := 0x12
def LC709204F_REG_IC_POWER_MODE : Nat := 0x15
def LC709204F_REG_BATTERY_STATUS : Nat := 0x19
def LC709204F_REG_TOTAL_RUN_TIME_LOWER_16BIT : Nat := 0x24
def LC709204F_REG_TOTAL_RUN_TIME_HIGHER_8BIT : Nat := 0x25
def LC709204F_REG_ACCUMULATED_RSOC_LOWER_16BIT : Nat := 0x28
def LC709204F_REG_ACCUMULATED_RSOC_HIGHER_16BIT : Nat := 0x29
def LC709204F_REG_MAXIMUM_CELL_TEMPERATURE_TSENSE1 : Nat := 0x2C
def LC709204F_REG_MINIMUM_CELL_TEMPERATURE_TSENSE1 : Nat := 0x2D
def LC709204F_REG_AMBIENT_TEMPERATURE_TSENSE2 : Nat := 0x30
def LC709204F_REG_USER_ID_LOWER_16BIT : Nat := 0x36
def LC709204F_REG_USER_ID_HIGHER_16BIT : Nat := 0x37
def LC709204F_REG_CURRENT_DIRECTION : Nat := 0x0A
def LC709204F_REG_APT : Nat := 0x0C
def LC709204F_REG_RSOC : Nat := 0x0D
def LC709204F_REG_STATUS_BIT : Nat := 0x16
def LC709204F_REG_ACCUMULATED_TEMPERATURE_LOWER_16BIT : Nat := 0x26
def LC709204F_REG_ACCUMULATED_TEMPERATURE_HIGHER_16BIT : Nat := 0x27

/-! ## `crc8` -/

/-- `const uint8_t POLYNOMIAL(0x07);` -/
def POLYNOMIAL : Nat := 0x07

/-- One round of the inner loop of `crc8`:
`crc = (crc & 0x80) ? (crc << 1) ^ POLYNOMIAL : (crc << 1);`
The right-hand side is computed in `int` and stored into the `uint8_t crc`. -/
def crc8Round (crc : Nat) : Nat :=
  if crc &&& 0x80 ≠ 0 then ((crc <<< 1) ^^^ POLYNOMIAL) % 256 else (crc <<< 1) % 256

/-- The inner loop `for (int i = 8; i; --i) { ... }`, started with counter `i`. -/
def crc8Bits : Nat → Nat → Nat
  | 0, crc => crc
  | i + 1, crc => crc8Bits i (crc8Round crc)

/-- The outer loop `for (int j = len; j; --j) { crc ^= *data++; ... }`, started with counter
`j`, the remaining data and the current `crc`.  A read past the end of the list (undefined
in C++) reads 0. -/
def crc8Loop : Nat → List Nat → Nat → Nat
  | 0, _, crc => crc
  | j + 1, data, crc => crc8Loop j data.tail (crc8Bits 8 (crc ^^^ data.headD 0))

/-- `uint8_t LC709204F::crc8(uint8_t *data, int len)` with `crc(0x00)`. -/
def crc8 (data : List Nat) (len : Nat) : Nat :=
  crc8Loop len data 0x00

/-! ## The `TwoWire` collaborator -/

/-- A call the driver makes on its `TwoWire` object, with the arguments it passes.
`write` carries the `len` bytes starting at the buffer pointer. -/
inductive WireCall where
  | begin
  | beginTransmission (address : Nat)
  | write (data : List Nat)
  | endTransmission (stop : Bool)
  | requestFrom (address quantity stop : Nat)
  | read
  deriving DecidableEq, Repr

/-- The behaviour of a `TwoWire` object over a bus state `σ`: what each method returns and
how it changes the bus.  `write` returns the number of bytes accepted, `endTransmission` the
completion status, `requestFrom` the number of bytes received, `read` an `int`. -/
structure TwoWire (σ : Type) where
  begin : σ → σ
  beginTransmission : Nat → σ → σ
  write : List Nat → σ → Nat × σ
  endTransmission : Bool → σ → Nat × σ
  requestFrom : Nat → Nat → Nat → σ → Nat × σ
  read : σ → Int × σ

/-- The bus state together with the log of the calls made so far. -/
structure Port (σ : Type) where
  bus : σ
  log : List WireCall

/-- Default values of the `stop` arguments of the private bus helpers.  `LC709204F.cpp`
defines `i2cWriteThenRead`, `i2cWrite` and `i2cRead` with a trailing `bool stop` and calls
them without it; the declarations that would give the defaults are not in `LC709204F.h`, so
the three defaults are parameters of the embedding. -/
structure StopDefaults where
  i2cWriteThenRead : Bool
  i2cWrite : Bool
  i2cRead : Bool

variable {σ : Type}

/-- `_wire->begin()` -/
def wireBegin (w : TwoWire σ) (p : Port σ) : Port σ :=
  { bus := w.begin p.bus, log := p.log ++ [WireCall.begin] }

/-- `_wire->beginTransmission(address)` -/
def wireBeginTransmission (w : TwoWire σ) (address : Nat) (p : Port σ) : Port σ :=
  { bus := w.beginTransmission address p.bus,
    log := p.log ++ [WireCall.beginTransmission address] }

/-- `_wire->write(buffer, len)`, where `data` is the `len` bytes at `buffer`. -/
def wireWrite (w : TwoWire σ) (data : List Nat) (p : Port σ) : Nat × Port σ :=
  ((w.write data p.bus).1, { bus := (w.write data p.bus).2, log := p.log ++ [WireCall.write data] })

/-- `_wire->endTransmission(stop)` -/
def wireEndTransmission (w : TwoWire σ) (stop : Bool) (p : Port σ) : Nat × Port σ :=
  ((w.endTransmission stop p.bus).1,
    { bus := (w.endTransmission stop p.bus).2, log := p.log ++ [WireCall.endTransmission stop] })

/-- `_wire->requestFrom(address, quantity, stop)` -/
def wireRequestFrom (w : TwoWire σ) (address quantity stop : Nat) (p : Port σ) : Nat × Port σ :=
  ((w.requestFrom address quantity stop p.bus).1,
    { bus := (w.requestFrom address quantity stop p.bus).2,
      log := p.log ++ [WireCall.requestFrom address quantity stop] })

/-- `_wire->read()` -/
def wireRead (w : TwoWire σ) (p : Port σ) : Int × Port σ :=
  ((w.read p.bus).1, { bus := (w.read p.bus).2, log := p.log ++ [WireCall.read] })

/-! ## Bus helpers of the driver -/

/-- `bool LC709204F::i2cWrite(const uint8_t *buffer, size_t len, bool stop)` -/
def i2cWrite (w : TwoWire σ) (buffer : List Nat) (len : Nat) (stop : Bool) (p : Port σ) :
    Bool × Port σ :=
  let p1 := wireBeginTransmission w LC709204F_I2CADDR p
  let r := wireWrite w (buffer.take len) p1
  if r.1 ≠ len then (false, r.2)
  else
    let e := wireEndTransmission w stop r.2
    if e.1 = 0 then (true, e.2) else (false, e.2)

/-- The loop `for (uint16_t i = 0; i < len; i++) { buffer[i] = _wire->read(); }` of
`_i2cRead`, with `n = len - i` iterations left; `buffer` points `off` cells into the array.
The `int` returned by `read` is stored into a `uint8_t`. -/
def readInto (w : TwoWire σ) (off : Nat) : Nat → Nat → List Nat → Port σ → List Nat × Port σ
  | 0, _, buffer, p => (buffer, p)
  | n + 1, i, buffer, p =>
    readInto w off n (i + 1) (buffer.set (off + i) ((wireRead w p).1 % 256).toNat) (wireRead w p).2

/-- `bool LC709204F::_i2cRead(uint8_t *buffer, size_t len, bool stop)`, the branch for the
standard `Wire` library:
`requestFrom((uint8_t) LC709204F_I2CADDR, (uint8_t) len, (uint8_t) stop)`.
`buffer` points `off` cells into the array `buffer`. -/
def _i2cRead (w : TwoWire σ) (buffer : List Nat) (off len : Nat) (stop : Bool) (p : Port σ) :
    Bool × List Nat × Port σ :=
  let r := wireRequestFrom w (LC709204F_I2CADDR % 256) (len % 256) stop.toNat p
  if r.1 ≠ len then (false, buffer, r.2)
  else (true, readInto w off len 0 buffer r.2)

/-- The loop `while (pos < len) { ... }` of `i2cRead`, entered with the current `pos`. -/
def i2cReadFrom (w : TwoWire σ) (off len : Nat) (stop : Bool) (pos : Nat) (buffer : List Nat)
    (p : Port σ) : Bool × List Nat × Port σ :=
  if pos < len then
    let read_len := len - pos
    let read_stop := if pos < len - read_len then false else stop
    let r := _i2cRead w buffer (off + pos) read_len read_stop p
    if r.1 = false then (false, r.2)
    else i2cReadFrom w off len stop (pos + read_len) r.2.1 r.2.2
  else (true, buffer, p)
termination_by len - pos
decreasing_by omega

/-- `bool LC709204F::i2cRead(uint8_t *buffer, size_t len, bool stop)` with `size_t pos = 0`. -/
def i2cRead (w : TwoWire σ) (buffer : List Nat) (off len : Nat) (stop : Bool) (p : Port σ) :
    Bool × List Nat × Port σ :=
  i2cReadFrom w off len stop 0 buffer p

/-- `bool LC709204F::i2cWriteThenRead(write_buffer, write_len, read_buffer, read_len, stop)`;
`readStop` is the default `stop` of the inner `i2cRead(read_buffer, read_len)`. -/
def i2cWriteThenRead (w : TwoWire σ) (write_buffer : List Nat) (write_len : Nat)
    (read_buffer : List Nat) (off read_len : Nat) (stop readStop : Bool) (p : Port σ) :
    Bool × List Nat × Port σ :=
  let r := i2cWrite w write_buffer write_len stop p
  if r.1 = false then (false, read_buffer, r.2)
  else i2cRead w read_buffer off read_len readStop r.2

/-! ## Register transactions -/

/-- `bool LC709204F::readWord(uint8_t command, uint16_t *data)`.  `data` is the value at
`*data` on entry; the result carries the value at `*data` on exit.  The cells `reply[3..5]`
are uninitialised in C++ and are only read after the bus filled them; they start as 0. -/
def readWord (w : TwoWire σ) (d : StopDefaults) (command : Nat) (data : Nat) (p : Port σ) :
    Bool × Nat × Port σ :=
  let reply0 := (LC709204F_I2CADDR * 2) % 256
  let reply : List Nat := [reply0, command, reply0 ||| 0x1, 0, 0, 0]
  let r := i2cWriteThenRead w [command] 1 reply 3 3 d.i2cWriteThenRead d.i2cRead p
  if r.1 = false then (false, data, r.2.2)
  else
    let crc := crc8 r.2.1 5
    if crc ≠ r.2.1.getD 5 0 then (false, data, r.2.2)
    else
      let data1 := r.2.1.getD 4 0
      let data2 := (data1 <<< 8) % 65536
      let data3 := data2 ||| r.2.1.getD 3 0
      (true, data3, r.2.2)

/-- The array `send` of `writeWord` once all five cells are assigned. -/
def writeWordFrame (command data : Nat) : List Nat :=
  let send0 := (LC709204F_I2CADDR * 2) % 256
  let send1 := command
  let send2 := (data &&& 0xFF) % 256
  let send3 := (data >>> 8) % 256
  let send4 := crc8 [send0, send1, send2, send3] 4
  [send0, send1, send2, send3, send4]

/-- `bool LC709204F::writeWord(uint8_t command, uint16_t data)`: `i2cWrite(send + 1, 4)`. -/
def writeWord (w : TwoWire σ) (d : StopDefaults) (command data : Nat) (p : Port σ) :
    Bool × Port σ :=
  i2cWrite w ((writeWordFrame command data).drop 1) 4 d.i2cWrite p

/-! ## Accessors -/

/-- `typedef enum { ... } lc709204f_current_direction_t;` -/
inductive lc709204f_current_direction_t where
  | LC709204F_CURRENT_DIRECTION_AUTO_MODE
  | LC709204F_CURRENT_DIRECTION_CHARGE_MODE
  | LC709204F_CURRENT_DIRECTION_DISCHARGE_MODE
  deriving DecidableEq, Repr

/-- The enumerator values of `lc709204f_current_direction_t`. -/
def lc709204f_current_direction_t.val : lc709204f_current_direction_t → Nat
  | .LC709204F_CURRENT_DIRECTION_AUTO_MODE => 0x0000
  | .LC709204F_CURRENT_DIRECTION_CHARGE_MODE => 0x0001
  | .LC709204F_CURRENT_DIRECTION_DISCHARGE_MODE => 0xFFFF

/-- `uint16_t LC709204F::getCurrentDirection(void)` -/
def getCurrentDirection (w : TwoWire σ) (d : StopDefaults) (p : Port σ) : Nat × Port σ :=
  (readWord w d LC709204F_REG_CURRENT_DIRECTION 0 p).2

/-- `bool LC709204F::setCurrentDirection(lc709204f_current_direction_t currentDirection)` -/
def setCurrentDirection (w : TwoWire σ) (d : StopDefaults)
    (currentDirection : lc709204f_current_direction_t) (p : Port σ) : Bool × Port σ :=
  writeWord w d LC709204F_REG_BEFORE_RSOC currentDirection.val p

/-- `uint16_t LC709204F::getAPT(void)`: `uint16_t val = 0; readWord(..., &val); return val;` -/
def getAPT (w : TwoWire σ) (d : StopDefaults) (p : Port σ) : Nat × Port σ :=
  (readWord w d LC709204F_REG_APT 0 p).2

/-- `bool LC709204F::setAPT(uint16_t b)` -/
def setAPT (w : TwoWire σ) (d : StopDefaults) (b : Nat) (p : Port σ) : Bool × Port σ :=
  writeWord w d LC709204F_REG_APT b p

/-- `uint16_t LC709204F::getRSOC(void)` -/
def getRSOC (w : TwoWire σ) (d : StopDefaults) (p : Port σ) : Nat × Port σ :=
  (readWord w d LC709204F_REG_RSOC 0 p).2

/-- `bool LC709204F::setRSOC(uint16_t b)` -/
def setRSOC (w : TwoWire σ) (d : StopDefaults) (b : Nat) (p : Port σ) : Bool × Port σ :=
  writeWord w d LC709204F_REG_RSOC b p

/-- `uint16_t LC709204F::getStatusBit(void)` -/
def getStatusBit (w : TwoWire σ) (d : StopDefaults) (p : Port σ) : Nat × Port σ :=
  (readWord w d LC709204F_REG_STATUS_BIT 0 p).2

/-- `bool LC709204F::setStatusBit(uint16_t b)` -/
def setStatusBit (w : TwoWire σ) (d : StopDefaults) (b : Nat) (p : Port σ) : Bool × Port σ :=
  writeWord w d LC709204F_REG_STATUS_BIT b p

/-! ## 32-bit quantities -/

/-- Conversion to `uint16_t`. -/
def toUInt16 (x : Int) : Nat := (x % 65536).toNat

/-- Conversion to `uint32_t`. -/
def toUInt32 (x : Int) : Nat := (x % 4294967296).toNat

/-- A result of 32-bit signed (`int`) arithmetic, wrapped to two's complement. -/
def wrapInt32 (x : Int) : Int := (x + 2147483648) % 4294967296 - 2147483648

/-- The getters' `return higher * 0x10000 + lower;` with `uint16_t lower, higher` and return
type `uint32_t`: both operands are promoted to `int`, the product and the sum are `int`, the
sum is converted to `uint32_t`. -/
def joinWords (lower higher : Nat) : Nat :=
  toUInt32 (wrapInt32 (wrapInt32 ((higher : Int) * 0x10000) + (lower : Int)))

/-- `uint32_t LC709204F::getAccumulatedTemperature(void)` -/
def getAccumulatedTemperature (w : TwoWire σ) (d : StopDefaults) (p : Port σ) : Nat × Port σ :=
  let r1 := readWord w d LC709204F_REG_ACCUMULATED_TEMPERATURE_LOWER_16BIT 0 p
  let r2 := readWord w d LC709204F_REG_ACCUMULATED_TEMPERATURE_HIGHER_16BIT 0 r1.2.2
  (joinWords r1.2.1 r2.2.1, r2.2.2)

/-- `bool LC709204F::setAccumulatedTemperature(uint32_t b)`; `&&` does not evaluate its
second operand when the first write failed. -/
def setAccumulatedTemperature (w : TwoWire σ) (d : StopDefaults) (b : Nat) (p : Port σ) :
    Bool × Port σ :=
  let lower := toUInt16 (b : Int)
  let higher := toUInt16 ((b >>> 16 : Nat) : Int)
  let r1 := writeWord w d LC709204F_REG_ACCUMULATED_TEMPERATURE_LOWER_16BIT lower p
  if r1.1 = false then (false, r1.2)
  else writeWord w d LC709204F_REG_ACCUMULATED_TEMPERATURE_HIGHER_16BIT higher r1.2

/-! ## What the bus answers during one transaction

Names for the results of the successive `TwoWire` calls of `writeWord` and `readWord`, used
to state what the bus reported. -/

/-- The result of `write` in `writeWord(command, data)`: bytes accepted, port afterwards. -/
def frameWritten (w : TwoWire σ) (command data : Nat) (p : Port σ) : Nat × Port σ :=
  wireWrite w ((writeWordFrame command data).drop 1)
    (wireBeginTransmission w LC709204F_I2CADDR p)

/-- The result of `endTransmission` in `writeWord(command, data)`: completion status, port
afterwards. -/
def frameEnded (w : TwoWire σ) (d : StopDefaults) (command data : Nat) (p : Port σ) :
    Nat × Port σ :=
  wireEndTransmission w d.i2cWrite (frameWritten w command data p).2

/-- The result of `write` in `readWord(command, ..)`: bytes accepted, port afterwards. -/
def commandWritten (w : TwoWire σ) (command : Nat) (p : Port σ) : Nat × Port σ :=
  wireWrite w [command] (wireBeginTransmission w LC709204F_I2CADDR p)

/-- The result of `endTransmission` in `readWord(command, ..)`. -/
def commandEnded (w : TwoWire σ) (d : StopDefaults) (command : Nat) (p : Port σ) :
    Nat × Port σ :=
  wireEndTransmission w d.i2cWriteThenRead (commandWritten w command p).2

/-- The result of `requestFrom` in `readWord(command, ..)`: bytes received, port afterwards. -/
def replyRequested (w : TwoWire σ) (d : StopDefaults) (command : Nat) (p : Port σ) :
    Nat × Port σ :=
  wireRequestFrom w LC709204F_I2CADDR 3 d.i2cRead.toNat (commandEnded w d command p).2

/-- The port after `i` calls of `read`. -/
def afterReads (w : TwoWire σ) : Nat → Port σ → Port σ
  | 0, p => p
  | i + 1, p => afterReads w i (wireRead w p).2

/-- The byte (as `uint8_t`) that the `i`-th call of `read` (counted from 0) delivers. -/
def deliveredByte (w : TwoWire σ) (i : Nat) (p : Port σ) : Nat :=
  ((wireRead w (afterReads w i p)).1 % 256).toNat

/-- The calls logged since the log had length `n`. -/
def callsSince (n : Nat) (p : Port σ) : List WireCall :=
  p.log.drop n

/-! ## Simulated buses -/

/-- A simulated bus that replays a list of `read` results.  `write` accepts `accept` bytes
whatever it is given, `endTransmission` reports `status`, `requestFrom` reports `recv`
bytes, `read` pops the next result (`-1` when none is left). -/
def replayBus (accept status recv : Nat) : TwoWire (List Int) where
  begin s := s
  beginTransmission _ s := s
  write _ s := (accept, s)
  endTransmission _ s := (status, s)
  requestFrom _ _ _ s := (recv, s)
  read s := (s.headD (-1), s.tail)

/-- The state of the simulated echoing device. -/
structure EchoState where
  /-- the 16-bit content of each register -/
  regs : Nat → Nat
  /-- whether the current transmission is addressed to the device -/
  selected : Bool
  /-- the bytes written in the current transmission -/
  frame : List Nat
  /-- the register selected by the last one-byte write -/
  pointer : Nat
  /-- the bytes waiting to be read -/
  pending : List Nat

/-- The reply of the echoing device to a read of register `c` holding `v`:
`[low, high, crc8([0x16, c, 0x17, low, high])]`. -/
def echoReply (c v : Nat) : List Nat :=
  [v % 256, v / 256, crc8 [0x16, c, 0x17, v % 256, v / 256] 5]

/-- A simulated device at address 0x0B that echoes writes: it stores the 16-bit value of
each write frame `[c, low, high, k]` under the register address `c`, takes a one-byte write
`[c]` as the selection of register `c`, and answers a read with `echoReply`.  With
`strict`, a write frame whose checksum byte is not
`crc8([0x16, c, low, high])` is refused with status 1 and not stored. -/
def echoDevice (strict : Bool) : TwoWire EchoState where
  begin s := s
  beginTransmission a s := { s with selected := decide (a = 0x0B), frame := [] }
  write data s := (data.length, { s with frame := s.frame ++ data })
  endTransmission _ s :=
    if s.selected = false then (2, s)
    else
      match s.frame with
      | [c] => (0, { s with pointer := c, frame := [] })
      | [c, lo, hi, k] =>
        if strict = true ∧ k ≠ crc8 [0x16, c, lo, hi] 4 then (1, { s with frame := [] })
        else (0, { s with regs := Function.update s.regs c (lo + 256 * hi), frame := [] })
      | _ => (1, { s with frame := [] })
  requestFrom a n _ s :=
    if a = 0x0B then
      ((echoReply s.pointer (s.regs s.pointer)).take n |>.length,
        { s with pending := (echoReply s.pointer (s.regs s.pointer)).take n })
    else (0, s)
  read s := (match s.pending with
    | [] => -1
    | b :: _ => (b : Int), { s with pending := s.pending.tail })

/-- The echoing device after power-on: every register holds 0x0000. -/
def echoPowerOn : EchoState :=
  { regs := fun _ => 0, selected := false, frame := [], pointer := 0, pending := [] }

/-! ## Further accessors -/

/-- `typedef enum { ... } lc709204f_apa_adjustment_t;` -/
inductive lc709204f_apa_adjustment_t where
  | LC709204F_APA_50MAH
  | LC709204F_APA_100MAH
  | LC709204F_APA_200MAH
  | LC709204F_APA_500MAH
  | LC709204F_APA_1000MAH
  | LC709204F_APA_2000MAH
  | LC709204F_APA_3000MAH
  | LC709204F_APA_4000MAH
  | LC709204F_APA_5000MAH
  | LC709204F_APA_6000MAH
  deriving DecidableEq, Repr

/-- The enumerator values of `lc709204f_apa_adjustment_t`. -/
def lc709204f_apa_adjustment_t.val : lc709204f_apa_adjustment_t → Nat
  | .LC709204F_APA_50MAH => 0x1313
  | .LC709204F_APA_100MAH => 0x1515
  | .LC709204F_APA_200MAH => 0x1818
  | .LC709204F_APA_500MAH => 0x2121
  | .LC709204F_APA_1000MAH => 0x2D2D
  | .LC709204F_APA_2000MAH => 0x3A3A
  | .LC709204F_APA_3000MAH => 0x3F3F
  | .LC709204F_APA_4000MAH => 0x4242
  | .LC709204F_APA_5000MAH => 0x4444
  | .LC709204F_APA_6000MAH => 0x4545

/-- `typedef enum { ... } lc709204f_battery_profile_t;` -/
inductive lc709204f_battery_profile_t where
  | LC709204F_BATTERY_PROFILE_3_7_V
  | LC709204F_BATTERY_PROFILE_UR18650ZY_PANASONIC
  | LC709204F_BATTERY_PROFILE_ICR18650_26H_SAMSUNG
  | LC709204F_BATTERY_PROFILE_3_8_V
  | LC709204F_BATTERY_PROFILE_3_85_V
  deriving DecidableEq, Repr

/-- The enumerator values of `lc709204f_battery_profile_t`. -/
def lc709204f_battery_profile_t.val : lc709204f_battery_profile_t → Nat
  | .LC709204F_BATTERY_PROFILE_3_7_V => 0x00
  | .LC709204F_BATTERY_PROFILE_UR18650ZY_PANASONIC => 0x01
  | .LC709204F_BATTERY_PROFILE_ICR18650_26H_SAMSUNG => 0x02
  | .LC709204F_BATTERY_PROFILE_3_8_V => 0x03
  | .LC709204F_BATTERY_PROFILE_3_85_V => 0x04

/-- `typedef enum { ... } lc709204f_power_mode_t;` -/
inductive lc709204f_power_mode_t where
  | LC709204F_POWER_MODE_OPERATE
  | LC709204F_POWER_MODE_SLEEP
  deriving DecidableEq, Repr

/-- The enumerator values of `lc709204f_power_mode_t`. -/
def lc709204f_power_mode_t.val : lc709204f_power_mode_t → Nat
  | .LC709204F_POWER_MODE_OPERATE => 0x0001
  | .LC709204F_POWER_MODE_SLEEP => 0x0002

/-- `bool LC709204F::setAPA(lc709204f_apa_adjustment_t APAAdjustment)` -/
def setAPA (w : TwoWire σ) (d : StopDefaults) (APAAdjustment : lc709204f_apa_adjustment_t)
    (p : Port σ) : Bool × Port σ :=
  writeWord w d LC709204F_REG_APA APAAdjustment.val p

/-- `bool LC709204F::setChangeOfTheParameter(lc709204f_battery_profile_t batteryProfile)` -/
def setChangeOfTheParameter (w : TwoWire σ) (d : StopDefaults)
    (batteryProfile : lc709204f_battery_profile_t) (p : Port σ) : Bool × Port σ :=
  writeWord w d LC709204F_REG_CHANGE_OF_THE_PARAMETER batteryProfile.val p

/-- `bool LC709204F::setICPowerMode(lc709204f_power_mode_t powerMode)` -/
def setICPowerMode (w : TwoWire σ) (d : StopDefaults) (powerMode : lc709204f_power_mode_t)
    (p : Port σ) : Bool × Port σ :=
  writeWord w d LC709204F_REG_IC_POWER_MODE powerMode.val p

/-- `bool LC709204F::setBatteryStatus(uint16_t b)` -/
def setBatteryStatus (w : TwoWire σ) (d : StopDefaults) (b : Nat) (p : Port σ) :
    Bool × Port σ :=
  writeWord w d LC709204F_REG_BATTERY_STATUS b p

/-- The driver object: `class LC709204F` with its private `TwoWire *_wire`.  A `TwoWire *` is
the number of a bus. -/
structure Driver where
  _wire : Nat

/-- `LC709204F::LC709204F(TwoWire *theWire) { _wire = theWire; }` -/
def Driver.new (theWire : Nat) : Driver :=
  { _wire := theWire }

set_option linter.unusedVariables false in
/-- `bool LC709204F::init(APAAdjustment, batteryProfile, TwoWire *wire)`.  `buses` gives the
port of every bus; the result carries the ports after the call.  The body calls
`_wire->begin()` and the four setters, all of which work on `_wire`; it does not mention
the parameter `wire`. -/
def init (w : TwoWire σ) (d : StopDefaults) (self : Driver)
    (APAAdjustment : lc709204f_apa_adjustment_t) (batteryProfile : lc709204f_battery_profile_t)
    (wire : Nat) (buses : Nat → Port σ) : Bool × (Nat → Port σ) :=
  let p0 := wireBegin w (buses self._wire)
  let r1 := setAPA w d APAAdjustment p0
  if r1.1 = false then (false, Function.update buses self._wire r1.2)
  else
    let r2 := setChangeOfTheParameter w d batteryProfile r1.2
    if r2.1 = false then (false, Function.update buses self._wire r2.2)
    else
      let r3 := setICPowerMode w d lc709204f_power_mode_t.LC709204F_POWER_MODE_OPERATE r2.2
      if r3.1 = false then (false, Function.update buses self._wire r3.2)
      else
        let r4 := setBatteryStatus w d 0x0040 r3.2
        if r4.1 = false then (false, Function.update buses self._wire r4.2)
        else (true, Function.update buses self._wire r4.2)

/-- `uint16_t LC709204F::getTimeToEmpty(void)` -/
def getTimeToEmpty (w : TwoWire σ) (d : StopDefaults) (p : Port σ) : Nat × Port σ :=
  (readWord w d LC709204F_REG_TIME_TO_EMPTY 0 p).2

/-- `uint16_t LC709204F::getCellVoltage(void)` -/
def getCellVoltage (w : TwoWire σ) (d : StopDefaults) (p : Port σ) : Nat × Port σ :=
  (readWord w d LC709204F_REG_CELL_VOLTAGE 0 p).2

/-- `bool LC709204F::setThermistors(bool tsense1, bool tsense2)` -/
def setThermistors (w : TwoWire σ) (d : StopDefaults) (tsense1 tsense2 : Bool) (p : Port σ) :
    Bool × Port σ :=
  let val0 : Nat := 0
  let val1 := if tsense1 = true then val0 ||| 0x0001 else val0
  let val2 := if tsense2 = true then val1 ||| 0x0002 else val1
  setStatusBit w d val2 p

/-- `uint32_t LC709204F::getTotalRunTime(void)` -/
def getTotalRunTime (w : TwoWire σ) (d : StopDefaults) (p : Port σ) : Nat × Port σ :=
  let r1 := readWord w d LC709204F_REG_TOTAL_RUN_TIME_LOWER_16BIT 0 p
  let r2 := readWord w d LC709204F_REG_TOTAL_RUN_TIME_HIGHER_8BIT 0 r1.2.2
  (joinWords r1.2.1 r2.2.1, r2.2.2)

/-- `bool LC709204F::setTotalRunTime(uint32_t b)` -/
def setTotalRunTime (w : TwoWire σ) (d : StopDefaults) (b : Nat) (p : Port σ) :
    Bool × Port σ :=
  let lower := toUInt16 (b : Int)
  let higher := toUInt16 ((b >>> 16 : Nat) : Int)
  let r1 := writeWord w d LC709204F_REG_TOTAL_RUN_TIME_LOWER_16BIT lower p
  if r1.1 = false then (false, r1.2)
  else writeWord w d LC709204F_REG_TOTAL_RUN_TIME_HIGHER_8BIT higher r1.2

/-- `uint32_t LC709204F::getAccumulatedRSOC(void)` -/
def getAccumulatedRSOC (w : TwoWire σ) (d : StopDefaults) (p : Port σ) : Nat × Port σ :=
  let r1 := readWord w d LC709204F_REG_ACCUMULATED_RSOC_LOWER_16BIT 0 p
  let r2 := readWord w d LC709204F_REG_ACCUMULATED_RSOC_HIGHER_16BIT 0 r1.2.2
  (joinWords r1.2.1 r2.2.1, r2.2.2)

/-- `bool LC709204F::setAccumulatedRSOC(uint32_t b)` -/
def setAccumulatedRSOC (w : TwoWire σ) (d : StopDefaults) (b : Nat) (p : Port σ) :
    Bool × Port σ :=
  let lower := toUInt16 (b : Int)
  let higher := toUInt16 ((b >>> 16 : Nat) : Int)
  let r1 := writeWord w d LC709204F_REG_ACCUMULATED_RSOC_LOWER_16BIT lower p
  if r1.1 = false then (false, r1.2)
  else writeWord w d LC709204F_REG_ACCUMULATED_RSOC_HIGHER_16BIT higher r1.2

/-- `uint32_t LC709204F::getUserId(void)` -/
def getUserId (w : TwoWire σ) (d : StopDefaults) (p : Port σ) : Nat × Port σ :=
  let r1 := readWord w d LC709204F_REG_USER_ID_LOWER_16BIT 0 p
  let r2 := readWord w d LC709204F_REG_USER_ID_HIGHER_16BIT 0 r1.2.2
  (joinWords r1.2.1 r2.2.1, r2.2.2)

/-! ## Temperatures -/

/-- Modelled from the spec: `map` of the Arduino core (`Arduino.h`), which is not under
src/: `(x - in_min) * (out_max - out_min) / (in_max - in_min) + out_min` in 32-bit signed
(`long`) arithmetic, each intermediate result wrapped, the division truncating. -/
def map (x in_min in_max out_min out_max : Int) : Int :=
  wrapInt32 (wrapInt32 (Int.tdiv
      (wrapInt32 (wrapInt32 (x - in_min) * wrapInt32 (out_max - out_min)))
      (wrapInt32 (in_max - in_min)))
    + out_min)

/-- `uint16_t LC709204F::getCellTemperatureTSENSE1(void)` -/
def getCellTemperatureTSENSE1 (w : TwoWire σ) (d : StopDefaults) (p : Port σ) :
    Nat × Port σ :=
  (readWord w d LC709204F_REG_CELL_TEMPERATURE_TSENSE1 0 p).2

/-- `float LC709204F::getCellTemperature(void)`.  The `float` result is the rational
`map(..) / 10`; the code returns the nearest `float`. -/
def getCellTemperature (w : TwoWire σ) (d : StopDefaults) (p : Port σ) : ℚ × Port σ :=
  let r := getCellTemperatureTSENSE1 w d p
  (((map (r.1 : Int) 0x980 0xDCC (-300) 800 : Int) : ℚ) / 10, r.2)

/-- `uint16_t LC709204F::getAmbientTemperatureTSENSE2(void)` -/
def getAmbientTemperatureTSENSE2 (w : TwoWire σ) (d : StopDefaults) (p : Port σ) :
    Nat × Port σ :=
  (readWord w d LC709204F_REG_AMBIENT_TEMPERATURE_TSENSE2 0 p).2

/-- `float LC709204F::getAmbientTemperature(void)`, as `getCellTemperature`. -/
def getAmbientTemperature (w : TwoWire σ) (d : StopDefaults) (p : Port σ) : ℚ × Port σ :=
  let r := getAmbientTemperatureTSENSE2 w d p
  (((map (r.1 : Int) 0x980 0xDCC (-300) 800 : Int) : ℚ) / 10, r.2)

/-- `bool LC709204F::setCellTemperature(float temperature)` from its second statement on:
`intTemp` is the `uint16_t` that `(uint16_t)(temperature * 10)` produced. -/
def setCellTemperature (w : TwoWire σ) (d : StopDefaults) (intTemp : Nat) (p : Port σ) :
    Bool × Port σ :=
  let temp := toUInt16 (map (intTemp : Int) (-300) 800 0x980 0xDCC)
  writeWord w d LC709204F_REG_CELL_TEMPERATURE_TSENSE1 temp p

/-! ## Results of the writes of `init` -/

/-- The register and value of the `k`-th write of `init` (counted from 1). -/
def initWrite (APAAdjustment : lc709204f_apa_adjustment_t)
    (batteryProfile : lc709204f_battery_profile_t) : Nat → Nat × Nat
  | 1 => (LC709204F_REG_APA, APAAdjustment.val)
  | 2 => (LC709204F_REG_CHANGE_OF_THE_PARAMETER, batteryProfile.val)
  | 3 => (LC709204F_REG_IC_POWER_MODE, 0x0001)
  | _ => (LC709204F_REG_BATTERY_STATUS, 0x0040)

/-- The result of the `k`-th write of `init` on the port `p` of `_wire`, when the writes
before it were issued: `initStep .. 0` is the port after `_wire->begin()`. -/
def initStep (w : TwoWire σ) (d : StopDefaults) (APAAdjustment : lc709204f_apa_adjustment_t)
    (batteryProfile : lc709204f_battery_profile_t) (p : Port σ) : Nat → Bool × Port σ
  | 0 => (true, wireBegin w p)
  | k + 1 =>
    writeWord w d (initWrite APAAdjustment batteryProfile (k + 1)).1
      (initWrite APAAdjustment batteryProfile (k + 1)).2
      (initStep w d APAAdjustment batteryProfile p k).2

/-- The calls of one complete write transaction of the payload `data`. -/
def frameCalls (d : StopDefaults) (data : List Nat) : List WireCall :=
  [WireCall.beginTransmission 0x0B, WireCall.write data, WireCall.endTransmission d.i2cWrite]

/-- The payload `[register, value-low, value-high, checksum]` of a write of `value` to
`register`. -/
def framePayload (register value : Nat) : List Nat :=
  [register, value &&& 0xFF, value >>> 8,
    crc8 [0x16, register, value &&& 0xFF, value >>> 8] 4]

/-- The calls of `_wire->begin()` followed by the first `k` writes of `init`, each
complete. -/
def initTrace (d : StopDefaults) (APAAdjustment : lc709204f_apa_adjustment_t)
    (batteryProfile : lc709204f_battery_profile_t) : Nat → List WireCall
  | 0 => [WireCall.begin]
  | k + 1 =>
    initTrace d APAAdjustment batteryProfile k
      ++ frameCalls d (framePayload (initWrite APAAdjustment batteryProfile (k + 1)).1
          (initWrite APAAdjustment batteryProfile (k + 1)).2)

/-- A simulated bus that accepts every write and reports status 0, except that the `k`-th
`endTransmission` (counted from 1) reports status 2.  The state counts the
`endTransmission` calls. -/
def failingBus (k : Nat) : TwoWire Nat where
  begin s := s
  beginTransmission _ s := s
  write data s := (data.length, s)
  endTransmission _ s := (if s + 1 = k then 2 else 0, s + 1)
  requestFrom _ _ _ s := (0, s)
  read s := (-1, s)

/-! ## 32-bit quantities as the specification words them -/

/-- The 32-bit read of the specification: read the register `addr` (lower 16 bits), then
`addr + 1` (upper 16 bits), and assemble `(higher << 16) + lower`. -/
def specRead32 (w : TwoWire σ) (d : StopDefaults) (addr : Nat) (p : Port σ) : Nat × Port σ :=
  (((readWord w d (addr + 1) 0 (readWord w d addr 0 p).2.2).2.1 <<< 16)
      + (readWord w d addr 0 p).2.1,
    (readWord w d (addr + 1) 0 (readWord w d addr 0 p).2.2).2.2)

/-- The 32-bit write of the specification: write the truncation of `b` to 16 bits to `addr`
and `b` shifted right by 16 to `addr + 1`; the second write is made when the first
succeeded. -/
def specWrite32 (w : TwoWire σ) (d : StopDefaults) (addr b : Nat) (p : Port σ) :
    Bool × Port σ :=
  if (writeWord w d addr (b % 65536) p).1 = false then
    (false, (writeWord w d addr (b % 65536) p).2)
  else writeWord w d (addr + 1) ((b >>> 16) % 65536) (writeWord w d addr (b % 65536) p).2

/-! ## The remaining registers and accessors -/

def LC709204F_REG_TIME_TO_FULL : Nat := 0x05
def LC709204F_REG_TSENSE1_THERMISTOR_B : Nat := 0x06
def LC709204F_REG_INITIAL_RSOC : Nat := 0x07
def LC709204F_REG_TSENSE2_THERMISTOR_B : Nat := 0x0E
def LC709204F_REG_ITE : Nat := 0x0F
def LC709204F_REG_IC_VERSION : Nat := 0x11
def LC709204F_REG_ALARM_LOW_RSOC : Nat := 0x13
def LC709204F_REG_ALARM_LOW_CELL_VOLTAGE : Nat := 0x14
def LC709204F_REG_CYCLE_COUNT : Nat := 0x17
def LC709204F_REG_NUMBER_OF_THE_PARAMETER : Nat := 0x1A
def LC709204F_REG_TERMINATION_CURRENT_RATE : Nat := 0x1C
def LC709204F_REG_EMPTY_CELL_VOLTAGE : Nat := 0x1D
def LC709204F_REG_ITE_OFFSET : Nat := 0x1E
def LC709204F_REG_ALARM_HIGH_CELL_VOLTAGE : Nat := 0x1F
def LC709204F_REG_ALARM_LOW_TEMPERATURE : Nat := 0x20
def LC709204F_REG_ALARM_HIGH_TEMPERATURE : Nat := 0x21
def LC709204F_REG_MAXIMUM_CELL_VOLTAGE : Nat := 0x2A
def LC709204F_REG_MINIMUM_CELL_VOLTAGE : Nat := 0x2B
def LC709204F_REG_STATE_OF_HEALTH : Nat := 0x32

/-- `#define LC709204_INITIALIZE_RSOC_PARAM 0xAA55` -/
def LC709204_INITIALIZE_RSOC_PARAM : Nat := 0xAA55

/-- `typedef enum { ... } lc709204f_before_rsoc_t;` -/
inductive lc709204f_before_rsoc_t where
  | LC709204F_BEFORE_RSOC_FIRST_SAMPLING
  | LC709204F_BEFORE_RSOC_SECOND_SAMPLING
  | LC709204F_BEFORE_RSOC_THIRD_SAMPLING
  | LC709204F_BEFORE_RSOC_FOURTH_SAMPLING
  deriving DecidableEq, Repr

/-- The enumerator values of `lc709204f_before_rsoc_t`. -/
def lc709204f_before_rsoc_t.val : lc709204f_before_rsoc_t → Nat
  | .LC709204F_BEFORE_RSOC_FIRST_SAMPLING => 0xAA55
  | .LC709204F_BEFORE_RSOC_SECOND_SAMPLING => 0xAA56
  | .LC709204F_BEFORE_RSOC_THIRD_SAMPLING => 0xAA57
  | .LC709204F_BEFORE_RSOC_FOURTH_SAMPLING => 0xAA58

/-- `uint16_t LC709204F::getTimeToFull(void)` -/
def getTimeToFull (w : TwoWire σ) (d : StopDefaults) (p : Port σ) : Nat × Port σ :=
  (readWord w d LC709204F_REG_TIME_TO_FULL 0 p).2

/-- `uint16_t LC709204F::getTSENSE1ThermistorB(void)` -/
def getTSENSE1ThermistorB (w : TwoWire σ) (d : StopDefaults) (p : Port σ) : Nat × Port σ :=
  (readWord w d LC709204F_REG_TSENSE1_THERMISTOR_B 0 p).2

/-- `bool LC709204F::setTSENSE1ThermistorB(uint16_t b)` -/
def setTSENSE1ThermistorB (w : TwoWire σ) (d : StopDefaults) (b : Nat) (p : Port σ) :
    Bool × Port σ :=
  writeWord w d LC709204F_REG_TSENSE1_THERMISTOR_B b p

/-- `bool LC709204F::setCellTemperatureTSENSE1(uint16_t b)` -/
def setCellTemperatureTSENSE1 (w : TwoWire σ) (d : StopDefaults) (b : Nat) (p : Port σ) :
    Bool × Port σ :=
  writeWord w d LC709204F_REG_CELL_TEMPERATURE_TSENSE1 b p

/-- `uint16_t LC709204F::getAPA(void)` -/
def getAPA (w : TwoWire σ) (d : StopDefaults) (p : Port σ) : Nat × Port σ :=
  (readWord w d LC709204F_REG_APA 0 p).2

/-- `uint16_t LC709204F::getTSENSE2ThermistorB(void)` -/
def getTSENSE2ThermistorB (w : TwoWire σ) (d : StopDefaults) (p : Port σ) : Nat × Port σ :=
  (readWord w d LC709204F_REG_TSENSE2_THERMISTOR_B 0 p).2

/-- `bool LC709204F::setTSENSE2ThermistorB(uint16_t b)` -/
def setTSENSE2ThermistorB (w : TwoWire σ) (d : StopDefaults) (b : Nat) (p : Port σ) :
    Bool × Port σ :=
  writeWord w d LC709204F_REG_TSENSE2_THERMISTOR_B b p

/-- `uint16_t LC709204F::getICVersion(void)` -/
def getICVersion (w : TwoWire σ) (d : StopDefaults) (p : Port σ) : Nat × Port σ :=
  (readWord w d LC709204F_REG_IC_VERSION 0 p).2

/-- `uint16_t LC709204F::getChangeOfTheParameter(void)` -/
def getChangeOfTheParameter (w : TwoWire σ) (d : StopDefaults) (p : Port σ) : Nat × Port σ :=
  (readWord w d LC709204F_REG_CHANGE_OF_THE_PARAMETER 0 p).2

/-- `uint16_t LC709204F::getAlarmLowRSOC(void)` -/
def getAlarmLowRSOC (w : TwoWire σ) (d : StopDefaults) (p : Port σ) : Nat × Port σ :=
  (readWord w d LC709204F_REG_ALARM_LOW_RSOC 0 p).2

/-- `bool LC709204F::setAlarmLowRSOC(uint16_t b)` -/
def setAlarmLowRSOC (w : TwoWire σ) (d : StopDefaults) (b : Nat) (p : Port σ) :
    Bool × Port σ :=
  writeWord w d LC709204F_REG_ALARM_LOW_RSOC b p

/-- `uint16_t LC709204F::getAlarmLowCellVoltage(void)` -/
def getAlarmLowCellVoltage (w : TwoWire σ) (d : StopDefaults) (p : Port σ) : Nat × Port σ :=
  (readWord w d LC709204F_REG_ALARM_LOW_CELL_VOLTAGE 0 p).2

/-- `bool LC709204F::setAlarmLowCellVoltage(uint16_t b)` -/
def setAlarmLowCellVoltage (w : TwoWire σ) (d : StopDefaults) (b : Nat) (p : Port σ) :
    Bool × Port σ :=
  writeWord w d LC709204F_REG_ALARM_LOW_CELL_VOLTAGE b p

/-- `uint16_t LC709204F::getICPowerMode(void)` -/
def getICPowerMode (w : TwoWire σ) (d : StopDefaults) (p : Port σ) : Nat × Port σ :=
  (readWord w d LC709204F_REG_IC_POWER_MODE 0 p).2

/-- `uint16_t LC709204F::getCycleCount(void)` -/
def getCycleCount (w : TwoWire σ) (d : StopDefaults) (p : Port σ) : Nat × Port σ :=
  (readWord w d LC709204F_REG_CYCLE_COUNT 0 p).2

/-- `uint16_t LC709204F::getBatteryStatus(void)` -/
def getBatteryStatus (w : TwoWire σ) (d : StopDefaults) (p : Port σ) : Nat × Port σ :=
  (readWord w d LC709204F_REG_BATTERY_STATUS 0 p).2

/-- `uint16_t LC709204F::getNumberOfTheParameter(void)` -/
def getNumberOfTheParameter (w : TwoWire σ) (d : StopDefaults) (p : Port σ) : Nat × Port σ :=
  (readWord w d LC709204F_REG_NUMBER_OF_THE_PARAMETER 0 p).2

/-- `uint16_t LC709204F::getTerminationCurrentRate(void)` -/
def getTerminationCurrentRate (w : TwoWire σ) (d : StopDefaults) (p : Port σ) : Nat × Port σ :=
  (readWord w d LC709204F_REG_TERMINATION_CURRENT_RATE 0 p).2

/-- `bool LC709204F::setTerminationCurrentRate(uint16_t b)` -/
def setTerminationCurrentRate (w : TwoWire σ) (d : StopDefaults) (b : Nat) (p : Port σ) :
    Bool × Port σ :=
  writeWord w d LC709204F_REG_TERMINATION_CURRENT_RATE b p

/-- `uint16_t LC709204F::getEmptyCellVoltage(void)` -/
def getEmptyCellVoltage (w : TwoWire σ) (d : StopDefaults) (p : Port σ) : Nat × Port σ :=
  (readWord w d LC709204F_REG_EMPTY_CELL_VOLTAGE 0 p).2

/-- `bool LC709204F::setEmptyCellVoltage(uint16_t b)` -/
def setEmptyCellVoltage (w : TwoWire σ) (d : StopDefaults) (b : Nat) (p : Port σ) :
    Bool × Port σ :=
  writeWord w d LC709204F_REG_EMPTY_CELL_VOLTAGE b p

/-- `uint16_t LC709204F::getITEOffset(void)` -/
def getITEOffset (w : TwoWire σ) (d : StopDefaults) (p : Port σ) : Nat × Port σ :=
  (readWord w d LC709204F_REG_ITE_OFFSET 0 p).2

/-- `bool LC709204F::setITEOffset(uint16_t b)` -/
def setITEOffset (w : TwoWire σ) (d : StopDefaults) (b : Nat) (p : Port σ) :
    Bool × Port σ :=
  writeWord w d LC709204F_REG_ITE_OFFSET b p

/-- `uint16_t LC709204F::getAlarmHighCellVoltage(void)` -/
def getAlarmHighCellVoltage (w : TwoWire σ) (d : StopDefaults) (p : Port σ) : Nat × Port σ :=
  (readWord w d LC709204F_REG_ALARM_HIGH_CELL_VOLTAGE 0 p).2

/-- `bool LC709204F::setAlarmHighCellVoltage(uint16_t b)` -/
def setAlarmHighCellVoltage (w : TwoWire σ) (d : StopDefaults) (b : Nat) (p : Port σ) :
    Bool × Port σ :=
  writeWord w d LC709204F_REG_ALARM_HIGH_CELL_VOLTAGE b p

/-- `float LC709204F::getAlarmLowTemperature(void)`; the `float` result is the rational `map(..) / 10`. -/
def getAlarmLowTemperature (w : TwoWire σ) (d : StopDefaults) (p : Port σ) : ℚ × Port σ :=
  let r := readWord w d LC709204F_REG_ALARM_LOW_TEMPERATURE 0 p
  (((map (r.2.1 : Int) 0x980 0xDCC (-300) 800 : Int) : ℚ) / 10, r.2.2)

/-- `bool LC709204F::setAlarmLowTemperature(float temp)` from its second statement on, as `setCellTemperature`:
`intTemp` is the `uint16_t` that the cast of `temp * 10` produced. -/
def setAlarmLowTemperature (w : TwoWire σ) (d : StopDefaults) (intTemp : Nat) (p : Port σ) :
    Bool × Port σ :=
  let temperature := toUInt16 (map (intTemp : Int) (-300) 800 0x980 0xDCC)
  writeWord w d LC709204F_REG_ALARM_LOW_TEMPERATURE temperature p

/-- `float LC709204F::getAlarmHighTemperature(void)`; the `float` result is the rational `map(..) / 10`. -/
def getAlarmHighTemperature (w : TwoWire σ) (d : StopDefaults) (p : Port σ) : ℚ × Port σ :=
  let r := readWord w d LC709204F_REG_ALARM_HIGH_TEMPERATURE 0 p
  (((map (r.2.1 : Int) 0x980 0xDCC (-300) 800 : Int) : ℚ) / 10, r.2.2)

/-- `bool LC709204F::setAlarmHighTemperature(float temp)` from its second statement on, as `setCellTemperature`:
`intTemp` is the `uint16_t` that the cast of `temp * 10` produced. -/
def setAlarmHighTemperature (w : TwoWire σ) (d : StopDefaults) (intTemp : Nat) (p : Port σ) :
    Bool × Port σ :=
  let temperature := toUInt16 (map (intTemp : Int) (-300) 800 0x980 0xDCC)
  writeWord w d LC709204F_REG_ALARM_HIGH_TEMPERATURE temperature p

/-- `uint16_t LC709204F::getMaximumCellVoltage(void)` -/
def getMaximumCellVoltage (w : TwoWire σ) (d : StopDefaults) (p : Port σ) : Nat × Port σ :=
  (readWord w d LC709204F_REG_MAXIMUM_CELL_VOLTAGE 0 p).2

/-- `bool LC709204F::setMaximumCellVoltage(uint16_t b)` -/
def setMaximumCellVoltage (w : TwoWire σ) (d : StopDefaults) (b : Nat) (p : Port σ) :
    Bool × Port σ :=
  writeWord w d LC709204F_REG_MAXIMUM_CELL_VOLTAGE b p

/-- `uint16_t LC709204F::getMinimumCellVoltage(void)` -/
def getMinimumCellVoltage (w : TwoWire σ) (d : StopDefaults) (p : Port σ) : Nat × Port σ :=
  (readWord w d LC709204F_REG_MINIMUM_CELL_VOLTAGE 0 p).2

/-- `bool LC709204F::setMinimumCellVoltage(uint16_t b)` -/
def setMinimumCellVoltage (w : TwoWire σ) (d : StopDefaults) (b : Nat) (p : Port σ) :
    Bool × Port σ :=
  writeWord w d LC709204F_REG_MINIMUM_CELL_VOLTAGE b p

/-- `uint16_t LC709204F::getMaximumCellTemperatureTSENSE1(void)` -/
def getMaximumCellTemperatureTSENSE1 (w : TwoWire σ) (d : StopDefaults) (p : Port σ) : Nat × Port σ :=
  (readWord w d LC709204F_REG_MAXIMUM_CELL_TEMPERATURE_TSENSE1 0 p).2

/-- `float LC709204F::getMaximumCellTemperature(void)`, as `getCellTemperature`. -/
def getMaximumCellTemperature (w : TwoWire σ) (d : StopDefaults) (p : Port σ) : ℚ × Port σ :=
  let r := getMaximumCellTemperatureTSENSE1 w d p
  (((map (r.1 : Int) 0x980 0xDCC (-300) 800 : Int) : ℚ) / 10, r.2)

/-- `bool LC709204F::setMaximumCellTemperatureTSENSE1(uint16_t b)` -/
def setMaximumCellTemperatureTSENSE1 (w : TwoWire σ) (d : StopDefaults) (b : Nat) (p : Port σ) :
    Bool × Port σ :=
  writeWord w d LC709204F_REG_MAXIMUM_CELL_TEMPERATURE_TSENSE1 b p

/-- `bool LC709204F::setMaximumCellTemperature(float temperature)` from its second statement on, as `setCellTemperature`:
`intTemp` is the `uint16_t` that the cast of `temperature * 10` produced. -/
def setMaximumCellTemperature (w : TwoWire σ) (d : StopDefaults) (intTemp : Nat) (p : Port σ) :
    Bool × Port σ :=
  let temperature := toUInt16 (map (intTemp : Int) (-300) 800 0x980 0xDCC)
  writeWord w d LC709204F_REG_MAXIMUM_CELL_TEMPERATURE_TSENSE1 temperature p

/-- `uint16_t LC709204F::getMinimumCellTemperatureTSENSE1(void)` -/
def getMinimumCellTemperatureTSENSE1 (w : TwoWire σ) (d : StopDefaults) (p : Port σ) : Nat × Port σ :=
  (readWord w d LC709204F_REG_MINIMUM_CELL_TEMPERATURE_TSENSE1 0 p).2

/-- `float LC709204F::getMinimumCellTemperature(void)`, as `getCellTemperature`. -/
def getMinimumCellTemperature (w : TwoWire σ) (d : StopDefaults) (p : Port σ) : ℚ × Port σ :=
  let r := getMinimumCellTemperatureTSENSE1 w d p
  (((map (r.1 : Int) 0x980 0xDCC (-300) 800 : Int) : ℚ) / 10, r.2)

/-- `bool LC709204F::setMinimumCellTemperatureTSENSE1(uint16_t b)` -/
def setMinimumCellTemperatureTSENSE1 (w : TwoWire σ) (d : StopDefaults) (b : Nat) (p : Port σ) :
    Bool × Port σ :=
  writeWord w d LC709204F_REG_MINIMUM_CELL_TEMPERATURE_TSENSE1 b p

/-- `bool LC709204F::setMinimumCellTemperature(float temperature)` from its second statement on, as `setCellTemperature`:
`intTemp` is the `uint16_t` that the cast of `temperature * 10` produced. -/
def setMinimumCellTemperature (w : TwoWire σ) (d : StopDefaults) (intTemp : Nat) (p : Port σ) :
    Bool × Port σ :=
  let temperature := toUInt16 (map (intTemp : Int) (-300) 800 0x980 0xDCC)
  writeWord w d LC709204F_REG_MINIMUM_CELL_TEMPERATURE_TSENSE1 temperature p

/-- `uint16_t LC709204F::getStateOfHealth(void)` -/
def getStateOfHealth (w : TwoWire σ) (d : StopDefaults) (p : Port σ) : Nat × Port σ :=
  (readWord w d LC709204F_REG_STATE_OF_HEALTH 0 p).2


/-- `bool LC709204F::setBeforeRSOC(lc709204f_before_rsoc_t beforeRSOC)` -/
def setBeforeRSOC (w : TwoWire σ) (d : StopDefaults) (beforeRSOC : lc709204f_before_rsoc_t)
    (p : Port σ) : Bool × Port σ :=
  writeWord w d LC709204F_REG_BEFORE_RSOC beforeRSOC.val p

/-- `bool LC709204F::setInitialRSOC(void)` -/
def setInitialRSOC (w : TwoWire σ) (d : StopDefaults) (p : Port σ) : Bool × Port σ :=
  writeWord w d LC709204F_REG_INITIAL_RSOC LC709204_INITIALIZE_RSOC_PARAM p

/-- `float LC709204F::getITE(void)`: `return val / 10.0;`, the `float` result being the
rational `val / 10`. -/
def getITE (w : TwoWire σ) (d : StopDefaults) (p : Port σ) : ℚ × Port σ :=
  (((readWord w d LC709204F_REG_ITE 0 p).2.1 : ℚ) / 10, (readWord w d LC709204F_REG_ITE 0 p).2.2)

/-! ## The accessors by kind

Every public accessor of `LC709204F.cpp` other than `init`, `setThermistors`,
`setInitialRSOC`, `getITE` and the setters with an enumeration argument is in one of these
lists, next to the register (or register pair) it names. -/

/-- The value a getter works with after `readWord(c, &val)` on `val = 0`: the register
content after a successful read, 0 after a failed one. -/
def valueOrZero (w : TwoWire σ) (d : StopDefaults) (c : Nat) (p : Port σ) : Nat :=
  if (readWord w d c 0 p).1 = true then (readWord w d c 0 p).2.1 else 0

/-- The getters of the form `uint16_t val = 0; readWord(REG, &val); return val;`. -/
def wordGetters (w : TwoWire σ) (d : StopDefaults) : List ((Port σ → Nat × Port σ) × Nat) :=
  [(getTimeToEmpty w d, LC709204F_REG_TIME_TO_EMPTY),
    (getTimeToFull w d, LC709204F_REG_TIME_TO_FULL),
    (getTSENSE1ThermistorB w d, LC709204F_REG_TSENSE1_THERMISTOR_B),
    (getCellTemperatureTSENSE1 w d, LC709204F_REG_CELL_TEMPERATURE_TSENSE1),
    (getCellVoltage w d, LC709204F_REG_CELL_VOLTAGE),
    (getCurrentDirection w d, LC709204F_REG_CURRENT_DIRECTION),
    (getAPA w d, LC709204F_REG_APA),
    (getAPT w d, LC709204F_REG_APT),
    (getRSOC w d, LC709204F_REG_RSOC),
    (getTSENSE2ThermistorB w d, LC709204F_REG_TSENSE2_THERMISTOR_B),
    (getICVersion w d, LC709204F_REG_IC_VERSION),
    (getChangeOfTheParameter w d, LC709204F_REG_CHANGE_OF_THE_PARAMETER),
    (getAlarmLowRSOC w d, LC709204F_REG_ALARM_LOW_RSOC),
    (getAlarmLowCellVoltage w d, LC709204F_REG_ALARM_LOW_CELL_VOLTAGE),
    (getICPowerMode w d, LC709204F_REG_IC_POWER_MODE),
    (getStatusBit w d, LC709204F_REG_STATUS_BIT),
    (getCycleCount w d, LC709204F_REG_CYCLE_COUNT),
    (getBatteryStatus w d, LC709204F_REG_BATTERY_STATUS),
    (getNumberOfTheParameter w d, LC709204F_REG_NUMBER_OF_THE_PARAMETER),
    (getTerminationCurrentRate w d, LC709204F_REG_TERMINATION_CURRENT_RATE),
    (getEmptyCellVoltage w d, LC709204F_REG_EMPTY_CELL_VOLTAGE),
    (getITEOffset w d, LC709204F_REG_ITE_OFFSET),
    (getAlarmHighCellVoltage w d, LC709204F_REG_ALARM_HIGH_CELL_VOLTAGE),
    (getMaximumCellVoltage w d, LC709204F_REG_MAXIMUM_CELL_VOLTAGE),
    (getMinimumCellVoltage w d, LC709204F_REG_MINIMUM_CELL_VOLTAGE),
    (getMaximumCellTemperatureTSENSE1 w d, LC709204F_REG_MAXIMUM_CELL_TEMPERATURE_TSENSE1),
    (getMinimumCellTemperatureTSENSE1 w d, LC709204F_REG_MINIMUM_CELL_TEMPERATURE_TSENSE1),
    (getAmbientTemperatureTSENSE2 w d, LC709204F_REG_AMBIENT_TEMPERATURE_TSENSE2),
    (getStateOfHealth w d, LC709204F_REG_STATE_OF_HEALTH)]

/-- The setters of the form `return writeWord(REG, b);` with `uint16_t b`. -/
def wordSetters (w : TwoWire σ) (d : StopDefaults) :
    List ((Nat → Port σ → Bool × Port σ) × Nat) :=
  [(setTSENSE1ThermistorB w d, LC709204F_REG_TSENSE1_THERMISTOR_B),
    (setCellTemperatureTSENSE1 w d, LC709204F_REG_CELL_TEMPERATURE_TSENSE1),
    (setAPT w d, LC709204F_REG_APT),
    (setRSOC w d, LC709204F_REG_RSOC),
    (setTSENSE2ThermistorB w d, LC709204F_REG_TSENSE2_THERMISTOR_B),
    (setAlarmLowRSOC w d, LC709204F_REG_ALARM_LOW_RSOC),
    (setAlarmLowCellVoltage w d, LC709204F_REG_ALARM_LOW_CELL_VOLTAGE),
    (setStatusBit w d, LC709204F_REG_STATUS_BIT),
    (setBatteryStatus w d, LC709204F_REG_BATTERY_STATUS),
    (setTerminationCurrentRate w d, LC709204F_REG_TERMINATION_CURRENT_RATE),
    (setEmptyCellVoltage w d, LC709204F_REG_EMPTY_CELL_VOLTAGE),
    (setITEOffset w d, LC709204F_REG_ITE_OFFSET),
    (setAlarmHighCellVoltage w d, LC709204F_REG_ALARM_HIGH_CELL_VOLTAGE),
    (setMaximumCellVoltage w d, LC709204F_REG_MAXIMUM_CELL_VOLTAGE),
    (setMinimumCellVoltage w d, LC709204F_REG_MINIMUM_CELL_VOLTAGE),
    (setMaximumCellTemperatureTSENSE1 w d, LC709204F_REG_MAXIMUM_CELL_TEMPERATURE_TSENSE1),
    (setMinimumCellTemperatureTSENSE1 w d, LC709204F_REG_MINIMUM_CELL_TEMPERATURE_TSENSE1)]

/-- The getters that return `map(val, 0x980, 0xDCC, -300, 800) / 10.0` of the register
read. -/
def temperatureGetters (w : TwoWire σ) (d : StopDefaults) :
    List ((Port σ → ℚ × Port σ) × Nat) :=
  [(getCellTemperature w d, LC709204F_REG_CELL_TEMPERATURE_TSENSE1),
    (getAlarmLowTemperature w d, LC709204F_REG_ALARM_LOW_TEMPERATURE),
    (getAlarmHighTemperature w d, LC709204F_REG_ALARM_HIGH_TEMPERATURE),
    (getMaximumCellTemperature w d, LC709204F_REG_MAXIMUM_CELL_TEMPERATURE_TSENSE1),
    (getMinimumCellTemperature w d, LC709204F_REG_MINIMUM_CELL_TEMPERATURE_TSENSE1),
    (getAmbientTemperature w d, LC709204F_REG_AMBIENT_TEMPERATURE_TSENSE2)]

/-- The setters that write `map(intTemp, -300, 800, 0x980, 0xDCC)`. -/
def temperatureSetters (w : TwoWire σ) (d : StopDefaults) :
    List ((Nat → Port σ → Bool × Port σ) × Nat) :=
  [(setCellTemperature w d, LC709204F_REG_CELL_TEMPERATURE_TSENSE1),
    (setAlarmLowTemperature w d, LC709204F_REG_ALARM_LOW_TEMPERATURE),
    (setAlarmHighTemperature w d, LC709204F_REG_ALARM_HIGH_TEMPERATURE),
    (setMaximumCellTemperature w d, LC709204F_REG_MAXIMUM_CELL_TEMPERATURE_TSENSE1),
    (setMinimumCellTemperature w d, LC709204F_REG_MINIMUM_CELL_TEMPERATURE_TSENSE1)]

/-- The 32-bit getters, with the registers of the lower and of the higher half. -/
def longGetters (w : TwoWire σ) (d : StopDefaults) :
    List ((Port σ → Nat × Port σ) × Nat × Nat) :=
  [(getTotalRunTime w d, LC709204F_REG_TOTAL_RUN_TIME_LOWER_16BIT, LC709204F_REG_TOTAL_RUN_TIME_HIGHER_8BIT),
    (getAccumulatedTemperature w d, LC709204F_REG_ACCUMULATED_TEMPERATURE_LOWER_16BIT, LC709204F_REG_ACCUMULATED_TEMPERATURE_HIGHER_16BIT),
    (getAccumulatedRSOC w d, LC709204F_REG_ACCUMULATED_RSOC_LOWER_16BIT, LC709204F_REG_ACCUMULATED_RSOC_HIGHER_16BIT),
    (getUserId w d, LC709204F_REG_USER_ID_LOWER_16BIT, LC709204F_REG_USER_ID_HIGHER_16BIT)]

/-- The 32-bit setters, with the registers of the lower and of the higher half. -/
def longSetters (w : TwoWire σ) (d : StopDefaults) :
    List ((Nat → Port σ → Bool × Port σ) × Nat × Nat) :=
  [(setTotalRunTime w d, LC709204F_REG_TOTAL_RUN_TIME_LOWER_16BIT, LC709204F_REG_TOTAL_RUN_TIME_HIGHER_8BIT),
    (setAccumulatedTemperature w d, LC709204F_REG_ACCUMULATED_TEMPERATURE_LOWER_16BIT, LC709204F_REG_ACCUMULATED_TEMPERATURE_HIGHER_16BIT),
    (setAccumulatedRSOC w d, LC709204F_REG_ACCUMULATED_RSOC_LOWER_16BIT, LC709204F_REG_ACCUMULATED_RSOC_HIGHER_16BIT)]

/-! ## Reference CRC-8: polynomial arithmetic over GF(2)

These definitions follow the words of the specification ("polynomial 0x07, initial value
0x00, MSB-first, no reflection"), not the code; `crc8` is compared with them. -/

open Polynomial in
/-- The number `n` read as a polynomial over GF(2) from its `k` low bits: bit `i` is the
coefficient of `x^i`. -/
noncomputable def bitsPoly (k n : Nat) : (ZMod 2)[X] :=
  ∑ i in Finset.range k, if n.testBit i then X ^ i else 0

/-- A byte read as a polynomial of degree below 8, most significant bit leading. -/
noncomputable def bytePoly (b : Nat) : Polynomial (ZMod 2) :=
  bitsPoly 8 b

open Polynomial in
/-- The message read as a polynomial `M(x)`: the first byte's most significant bit is the
leading coefficient. -/
noncomputable def messagePoly : List Nat → (ZMod 2)[X]
  | [] => 0
  | b :: rest => bytePoly b * X ^ (8 * rest.length) + messagePoly rest

open Polynomial in
/-- The generator `x^8 + x^2 + x + 1` (polynomial 0x07 with the implicit leading term). -/
noncomputable def crcGenerator : (ZMod 2)[X] :=
  X ^ 8 + X ^ 2 + X + 1

/-! ## Theorems -/

section Checksum

open Polynomial

theorem coeff_bitsPoly (k n j : Nat) :
    (bitsPoly k n).coeff j = if j < k ∧ n.testBit j = true then 1 else 0 := by
  unfold bitsPoly
  rw [finset_sum_coeff]
  have h : ∀ i ∈ Finset.range k,
      (if n.testBit i then (X : (ZMod 2)[X]) ^ i else 0).coeff j
        = if j = i then (if n.testBit j then 1 else 0) else 0 := by
    intro i _
    by_cases hji : j = i
    · subst hji
      by_cases hb : n.testBit j <;> simp [hb]
    · by_cases hb : n.testBit i <;> simp [hb, coeff_X_pow, hji]
  rw [Finset.sum_congr rfl h, Finset.sum_ite_eq]
  by_cases hjk : j < k <;> simp [hjk]

theorem degree_bitsPoly_lt (k n : Nat) : (bitsPoly k n).degree < k := by
  rw [degree_lt_iff_coeff_zero]
  intro m hm
  rw [coeff_bitsPoly]
  simp [Nat.not_lt.mpr hm]

theorem bitsPoly_xor (k a b : Nat) : bitsPoly k (a ^^^ b) = bitsPoly k a + bitsPoly k b := by
  ext j
  rw [coeff_add, coeff_bitsPoly, coeff_bitsPoly, coeff_bitsPoly, Nat.testBit_xor]
  have h2 : (1 : ZMod 2) + 1 = 0 := by decide
  by_cases hj : j < k <;> cases a.testBit j <;> cases b.testBit j <;> simp [hj, h2]

theorem bitsPoly_mod (k n : Nat) : bitsPoly k (n % 2 ^ k) = bitsPoly k n := by
  ext j
  rw [coeff_bitsPoly, coeff_bitsPoly, Nat.testBit_mod_two_pow]
  by_cases hj : j < k <;> simp [hj]

theorem bitsPoly_succ (k n : Nat) :
    bitsPoly (k + 1) n = bitsPoly k n + if n.testBit k then X ^ k else 0 := by
  unfold bitsPoly
  rw [Finset.sum_range_succ]

theorem bitsPoly_shiftLeft (k n : Nat) : bitsPoly (k + 1) (n <<< 1) = X * bitsPoly k n := by
  ext j
  rw [coeff_bitsPoly]
  cases j with
  | zero => simp [Nat.testBit_shiftLeft]
  | succ j =>
    rw [coeff_X_mul, coeff_bitsPoly, Nat.testBit_shiftLeft]
    simp

theorem crcGenerator_monic : crcGenerator.Monic := by
  have h : crcGenerator = X ^ 8 + (X ^ 2 + X + 1) := by
    unfold crcGenerator; ring
  rw [h]
  apply monic_X_pow_add
  have h1 : (X ^ 2 + X + 1 : (ZMod 2)[X]).degree ≤ 2 := by compute_degree
  exact lt_of_le_of_lt h1 (by norm_num)

theorem crcGenerator_degree : crcGenerator.degree = 8 := by
  unfold crcGenerator
  compute_degree!

theorem bytePoly_seven : bytePoly POLYNOMIAL = X ^ 2 + X + 1 := by
  have h0 : Nat.testBit 7 0 = true := by decide
  have h1 : Nat.testBit 7 1 = true := by decide
  have h2 : Nat.testBit 7 2 = true := by decide
  have h3 : Nat.testBit 7 3 = false := by decide
  have h4 : Nat.testBit 7 4 = false := by decide
  have h5 : Nat.testBit 7 5 = false := by decide
  have h6 : Nat.testBit 7 6 = false := by decide
  have h7 : Nat.testBit 7 7 = false := by decide
  simp only [bytePoly, bitsPoly, POLYNOMIAL, Finset.sum_range_succ, Finset.sum_range_zero,
    h0, h1, h2, h3, h4, h5, h6, h7]
  simp
  ring

theorem and_0x80_ne_zero_iff (c : Nat) : c &&& 0x80 ≠ 0 ↔ c.testBit 7 = true := by
  have h : (0x80 : Nat) = 2 ^ 7 := by norm_num
  rw [h, Nat.and_two_pow]
  cases c.testBit 7 <;> simp

/-- One round multiplies the state by `x` modulo the generator. -/
theorem crc8Round_dvd (c : Nat) :
    crcGenerator ∣ bytePoly (crc8Round c) - X * bytePoly c := by
  have hmul : X * bytePoly c
      = bytePoly (c <<< 1) + if c.testBit 7 then X ^ 8 else 0 := by
    unfold bytePoly
    rw [← bitsPoly_shiftLeft, bitsPoly_succ, Nat.testBit_shiftLeft]
    simp
  have hmod : ∀ n, bytePoly (n % 256) = bytePoly n := fun n => bitsPoly_mod 8 n
  unfold crc8Round
  by_cases hb : c.testBit 7 = true
  · have hc : c &&& 0x80 ≠ 0 := (and_0x80_ne_zero_iff c).mpr hb
    rw [if_pos hc, hmod, hmul, if_pos hb]
    unfold bytePoly
    rw [bitsPoly_xor]
    have h7 := bytePoly_seven
    unfold bytePoly at h7
    rw [h7]
    have h2 : (2 : (ZMod 2)[X]) = 0 := by
      have h : (C (2 : ZMod 2) : (ZMod 2)[X]) = 0 := by
        rw [show (2 : ZMod 2) = 0 by decide, C_0]
      rw [← h]
      exact (map_ofNat C 2).symm
    refine ⟨-1, ?_⟩
    unfold crcGenerator
    linear_combination (X ^ 2 + X + 1) * h2
  · have hc : ¬ (c &&& 0x80 ≠ 0) := fun h => hb ((and_0x80_ne_zero_iff c).mp h)
    rw [if_neg hc, hmod, hmul, if_neg hb]
    simp

/-- Running the inner loop `n` times multiplies the state by `x^n` modulo the generator. -/
theorem crc8Bits_dvd (n c : Nat) :
    crcGenerator ∣ bytePoly (crc8Bits n c) - X ^ n * bytePoly c := by
  induction n generalizing c with
  | zero => simp [crc8Bits]
  | succ n ih =>
    have h1 := ih (crc8Round c)
    have h2 := Dvd.dvd.mul_left (crc8Round_dvd c) (X ^ n)
    have h3 := dvd_add h1 h2
    have e : bytePoly (crc8Bits (n + 1) c) - X ^ (n + 1) * bytePoly c
        = bytePoly (crc8Bits n (crc8Round c)) - X ^ n * bytePoly (crc8Round c)
          + X ^ n * (bytePoly (crc8Round c) - X * bytePoly c) := by
      simp only [crc8Bits]
      ring
    rw [e]
    exact h3

theorem crc8Loop_dvd (data : List Nat) (crc : Nat) :
    crcGenerator ∣ bytePoly (crc8Loop data.length data crc)
      - (bytePoly crc * X ^ (8 * data.length) + messagePoly data * X ^ 8) := by
  induction data generalizing crc with
  | nil => simp [crc8Loop, messagePoly]
  | cons b rest ih =>
    have h1 := ih (crc8Bits 8 (crc ^^^ b))
    have h2 := Dvd.dvd.mul_right (crc8Bits_dvd 8 (crc ^^^ b)) (X ^ (8 * rest.length))
    have hx : bytePoly (crc ^^^ b) = bytePoly crc + bytePoly b := bitsPoly_xor 8 crc b
    rw [hx] at h2
    have h3 := dvd_add h1 h2
    have e : bytePoly (crc8Loop (b :: rest).length (b :: rest) crc)
          - (bytePoly crc * X ^ (8 * (b :: rest).length) + messagePoly (b :: rest) * X ^ 8)
        = bytePoly (crc8Loop rest.length rest (crc8Bits 8 (crc ^^^ b)))
            - (bytePoly (crc8Bits 8 (crc ^^^ b)) * X ^ (8 * rest.length)
                + messagePoly rest * X ^ 8)
          + (bytePoly (crc8Bits 8 (crc ^^^ b)) - X ^ 8 * (bytePoly crc + bytePoly b))
              * X ^ (8 * rest.length) := by
      simp only [List.length_cons, crc8Loop, List.tail_cons, List.headD_cons, messagePoly]
      ring
    rw [e]
    exact h3

theorem bytePoly_zero : bytePoly 0 = 0 := by
  simp [bytePoly, bitsPoly]

theorem crc8Round_lt (c : Nat) : crc8Round c < 256 := by
  unfold crc8Round
  split <;> exact Nat.mod_lt _ (by norm_num)

theorem crc8Bits_lt (n c : Nat) (hc : c < 256) : crc8Bits n c < 256 := by
  induction n generalizing c with
  | zero => simpa [crc8Bits] using hc
  | succ n ih => exact ih _ (crc8Round_lt c)

theorem crc8Loop_lt (j : Nat) (data : List Nat) (crc : Nat) (hc : crc < 256) :
    crc8Loop j data crc < 256 := by
  induction j generalizing data crc with
  | zero => simpa [crc8Loop] using hc
  | succ j ih => exact ih _ _ (crc8Bits_lt 7 _ (crc8Round_lt _))

theorem crc8_lt (data : List Nat) (len : Nat) : crc8 data len < 256 :=
  crc8Loop_lt len data 0 (by norm_num)

theorem bytePoly_crc8 (m : List Nat) :
    bytePoly (crc8 m m.length) = (messagePoly m * X ^ 8) %ₘ crcGenerator := by
  have h := crc8Loop_dvd m 0
  rw [bytePoly_zero, zero_mul, zero_add] at h
  have h1 := modByMonic_eq_of_dvd_sub crcGenerator_monic h
  have h2 : bytePoly (crc8 m m.length) %ₘ crcGenerator = bytePoly (crc8 m m.length) := by
    rw [modByMonic_eq_self_iff crcGenerator_monic, crcGenerator_degree]
    exact degree_bitsPoly_lt 8 _
  rw [← h2]
  exact h1

/-- C1: `crc8(m, |m|)` is the standard CRC-8 (polynomial 0x07, initial value 0x00, MSB-first,
no reflection, no final XOR): the result is a byte and bit `i` of it is the coefficient of
`x^i` in the remainder of `M(x) * x^8` modulo `x^8 + x^2 + x + 1` over GF(2), where `M(x)` is
the message read with the first byte's most significant bit leading. -/
theorem crc8_is_standard_crc8 (m : List Nat) :
    crc8 m m.length < 256 ∧
    ∀ i : Nat, ((messagePoly m * X ^ 8) %ₘ crcGenerator).coeff i
      = if i < 8 ∧ (crc8 m m.length).testBit i = true then 1 else 0 := by
  refine ⟨crc8_lt m m.length, fun i => ?_⟩
  rw [← bytePoly_crc8, bytePoly, coeff_bitsPoly]

set_option maxRecDepth 100000 in
/-- C2: known-answer vector: `crc8` of `[0x16, 0x04, 0x00, 0x00]` is `0xB8`, and `crc8` of
the empty sequence (`len = 0`) is `0x00`. -/
theorem crc8_known_answer :
    crc8 [0x16, 0x04, 0x00, 0x00] 4 = 0xB8 ∧ crc8 [] 0 = 0x00 := by
  decide

end Checksum

section Transactions

variable {σ : Type}

theorem i2cRead_eq (w : TwoWire σ) (buffer : List Nat) (off len : Nat) (stop : Bool)
    (p : Port σ) (hlen : 0 < len) :
    i2cRead w buffer off len stop p
      = if (_i2cRead w buffer off len stop p).1 = false
          then (false, (_i2cRead w buffer off len stop p).2)
          else (true, (_i2cRead w buffer off len stop p).2) := by
  unfold i2cRead
  rw [i2cReadFrom]
  simp only [hlen, if_true, Nat.sub_zero, Nat.sub_self, Nat.lt_irrefl, if_false, Nat.add_zero,
    Nat.zero_add]
  by_cases h : (_i2cRead w buffer off len stop p).1 = false
  · simp [h]
  · rw [if_neg h, if_neg h, i2cReadFrom]
    simp at h
    simp [h]

theorem i2cWrite_eq (w : TwoWire σ) (buffer : List Nat) (len : Nat) (stop : Bool)
    (p : Port σ) :
    i2cWrite w buffer len stop p
      = if (wireWrite w (buffer.take len) (wireBeginTransmission w LC709204F_I2CADDR p)).1 ≠ len
          then (false, (wireWrite w (buffer.take len)
            (wireBeginTransmission w LC709204F_I2CADDR p)).2)
        else if (wireEndTransmission w stop (wireWrite w (buffer.take len)
            (wireBeginTransmission w LC709204F_I2CADDR p)).2).1 = 0
          then (true, (wireEndTransmission w stop (wireWrite w (buffer.take len)
            (wireBeginTransmission w LC709204F_I2CADDR p)).2).2)
          else (false, (wireEndTransmission w stop (wireWrite w (buffer.take len)
            (wireBeginTransmission w LC709204F_I2CADDR p)).2).2) := by
  rfl

/-- The four outcomes of `writeWord`, in terms of what the bus reported. -/
theorem writeWord_eq (w : TwoWire σ) (d : StopDefaults) (command data : Nat) (p : Port σ) :
    writeWord w d command data p
      = if (frameWritten w command data p).1 ≠ 4 then (false, (frameWritten w command data p).2)
        else if (frameEnded w d command data p).1 = 0
          then (true, (frameEnded w d command data p).2)
          else (false, (frameEnded w d command data p).2) := by
  rfl

/-- The outcomes of `readWord`, in terms of what the bus reported and delivered. -/
theorem readWord_eq (w : TwoWire σ) (d : StopDefaults) (command data : Nat) (p : Port σ) :
    readWord w d command data p
      = if (commandWritten w command p).1 ≠ 1 then (false, data, (commandWritten w command p).2)
        else if (commandEnded w d command p).1 ≠ 0
          then (false, data, (commandEnded w d command p).2)
        else if (replyRequested w d command p).1 ≠ 3
          then (false, data, (replyRequested w d command p).2)
        else if crc8 [0x16, command, 0x17,
              deliveredByte w 0 (replyRequested w d command p).2,
              deliveredByte w 1 (replyRequested w d command p).2] 5
            ≠ deliveredByte w 2 (replyRequested w d command p).2
          then (false, data, afterReads w 3 (replyRequested w d command p).2)
        else (true,
          ((deliveredByte w 1 (replyRequested w d command p).2 <<< 8) % 65536)
            ||| deliveredByte w 0 (replyRequested w d command p).2,
          afterReads w 3 (replyRequested w d command p).2) := by
  unfold readWord i2cWriteThenRead
  simp only [i2cWrite_eq, i2cRead_eq w _ 3 3 _ _ (by norm_num)]
  have hw : wireWrite w (List.take 1 [command]) (wireBeginTransmission w LC709204F_I2CADDR p)
      = commandWritten w command p := rfl
  rw [hw]
  by_cases h1 : (commandWritten w command p).1 = 1
  · have he : wireEndTransmission w d.i2cWriteThenRead (commandWritten w command p).2
        = commandEnded w d command p := rfl
    rw [he]
    by_cases h2 : (commandEnded w d command p).1 = 0
    · have hr : wireRequestFrom w 11 3 d.i2cRead.toNat
          (commandEnded w d command p).2 = replyRequested w d command p := rfl
      by_cases h3 : (replyRequested w d command p).1 = 3
      · have hcrc : ∀ a b c e f g : Nat, crc8 [a, b, c, e, f, g] 5 = crc8 [a, b, c, e, f] 5 :=
          fun _ _ _ _ _ _ => rfl
        simp [h1, h2, h3, _i2cRead, hr, readInto, deliveredByte, afterReads, LC709204F_I2CADDR,
          hcrc]
      · simp [h1, h2, h3, _i2cRead, hr, LC709204F_I2CADDR]
    · simp [h1, h2]
  · simp [h1]

theorem writeWordFrame_eq (c data : Nat) (hd : data < 65536) :
    writeWordFrame c data
      = [0x16, c, data &&& 0xFF, data >>> 8,
          crc8 [0x16, c, data &&& 0xFF, data >>> 8] 4] := by
  have h1 : (data &&& 0xFF) % 256 = data &&& 0xFF := by
    apply Nat.mod_eq_of_lt
    exact lt_of_le_of_lt Nat.and_le_right (by norm_num)
  have h2 : (data >>> 8) % 256 = data >>> 8 := by
    apply Nat.mod_eq_of_lt
    rw [Nat.shiftRight_eq_div_pow]
    omega
  simp only [writeWordFrame, LC709204F_I2CADDR, h1, h2]

theorem writeWord_log (w : TwoWire σ) (d : StopDefaults) (command data : Nat) (p : Port σ) :
    (writeWord w d command data p).2.log
      = p.log ++ ([WireCall.beginTransmission 0x0B,
            WireCall.write ((writeWordFrame command data).drop 1)]
          ++ if (frameWritten w command data p).1 = 4
              then [WireCall.endTransmission d.i2cWrite] else []) := by
  rw [writeWord_eq]
  by_cases h : (frameWritten w command data p).1 = 4
  · by_cases h2 : (frameEnded w d command data p).1 = 0 <;>
      simp only [h, h2, ne_eq, not_true_eq_false, if_false, if_true] <;>
      simp [frameEnded, frameWritten, wireEndTransmission, wireWrite,
        wireBeginTransmission, LC709204F_I2CADDR]
  · simp only [h, ne_eq, not_false_eq_true, if_false, if_true]
    simp [frameWritten, wireWrite, wireBeginTransmission, LC709204F_I2CADDR]

theorem callsSince_append (p q : Port σ) (l : List WireCall) (h : q.log = p.log ++ l) :
    callsSince p.log.length q = l := by
  simp [callsSince, h]

/-- C3: for every register address `c` and 16-bit value `d`, `writeWord(c, d)` hands the bus
exactly one write, addressed to device 0x0B, whose payload is the 4 bytes
`[c, d & 0xFF, d >> 8, k]` with `k = crc8([0x16, c, d & 0xFF, d >> 8])`: the write-address
byte 0x16 enters the checksum but is not in the payload.  The only further call is the
`endTransmission` that closes this write when the bus accepted the 4 bytes. -/
theorem writeWord_hands_bus_one_frame (w : TwoWire σ) (d : StopDefaults) (c data : Nat)
    (p : Port σ) (hd : data < 65536) :
    callsSince p.log.length (writeWord w d c data p).2
      = [WireCall.beginTransmission 0x0B,
          WireCall.write
            [c, data &&& 0xFF, data >>> 8, crc8 [0x16, c, data &&& 0xFF, data >>> 8] 4]]
        ++ (if (frameWritten w c data p).1 = 4
              then [WireCall.endTransmission d.i2cWrite] else []) := by
  apply callsSince_append
  rw [writeWord_log, writeWordFrame_eq c data hd]
  rfl

theorem writeWord_hands_bus_one_frame_witness :
    (0x1234 : Nat) < 65536 ∧
    callsSince (Port.mk ([] : List Int) []).log.length
        (writeWord (replayBus 4 0 0) ⟨false, true, true⟩ 0x0C 0x1234 ⟨[], []⟩).2
      = [WireCall.beginTransmission 0x0B,
          WireCall.write
            [0x0C, 0x1234 &&& 0xFF, 0x1234 >>> 8,
              crc8 [0x16, 0x0C, 0x1234 &&& 0xFF, 0x1234 >>> 8] 4]]
        ++ (if (frameWritten (replayBus 4 0 0) 0x0C 0x1234 ⟨[], []⟩).1 = 4
              then [WireCall.endTransmission true] else []) :=
  ⟨by decide,
    writeWord_hands_bus_one_frame (replayBus 4 0 0) ⟨false, true, true⟩ 0x0C 0x1234 ⟨[], []⟩
      (by decide)⟩

/-- C4 (as stated, refuted): on a bus that accepts none of the 4 payload bytes,
`writeWord` returns false although no non-zero completion status is reported:
`endTransmission` would report 0 and is not even called. -/
theorem writeWord_false_without_completion_status :
    (writeWord (replayBus 0 0 0) ⟨false, true, true⟩ 0x0C 0x1234 ⟨[], []⟩).1 = false ∧
    (frameEnded (replayBus 0 0 0) ⟨false, true, true⟩ 0x0C 0x1234 ⟨[], []⟩).1 = 0 ∧
    (∀ stop, WireCall.endTransmission stop ∉
      (writeWord (replayBus 0 0 0) ⟨false, true, true⟩ 0x0C 0x1234 ⟨[], []⟩).2.log) := by
  refine ⟨rfl, rfl, ?_⟩
  intro stop
  rw [writeWord_log]
  simp [frameWritten, wireWrite, replayBus]

/-- C4 (amended): `writeWord(c, d)` returns true exactly when the bus accepted all 4 payload
bytes and then reported completion status 0; it returns false when the bus accepted another
number of bytes or reported a non-zero completion status.  It never issues a bus read: no
`requestFrom` and no `read` (no checksum is read back). -/
theorem writeWord_result (w : TwoWire σ) (d : StopDefaults) (c data : Nat) (p : Port σ) :
    ((writeWord w d c data p).1 = true
      ↔ (frameWritten w c data p).1 = 4 ∧ (frameEnded w d c data p).1 = 0) ∧
    (∀ call ∈ callsSince p.log.length (writeWord w d c data p).2,
      call ≠ WireCall.read ∧ ∀ a q s, call ≠ WireCall.requestFrom a q s) := by
  constructor
  · rw [writeWord_eq]
    by_cases h : (frameWritten w c data p).1 = 4
    · by_cases h2 : (frameEnded w d c data p).1 = 0 <;> simp [h, h2]
    · simp [h]
  · rw [callsSince_append p _ _ (writeWord_log w d c data p)]
    intro call hcall
    by_cases h : (frameWritten w c data p).1 = 4
    · simp [h] at hcall
      rcases hcall with rfl | rfl | rfl <;> simp
    · simp [h] at hcall
      rcases hcall with rfl | rfl <;> simp

theorem deliveredByte_lt (w : TwoWire σ) (i : Nat) (p : Port σ) : deliveredByte w i p < 256 := by
  unfold deliveredByte
  have h1 : (0 : Int) ≤ (wireRead w (afterReads w i p)).1 % 256 := Int.emod_nonneg _ (by norm_num)
  have h2 : (wireRead w (afterReads w i p)).1 % 256 < 256 := Int.emod_lt_of_pos _ (by norm_num)
  omega

theorem readWord_log (w : TwoWire σ) (d : StopDefaults) (command data : Nat) (p : Port σ) :
    (readWord w d command data p).2.2.log
      = p.log ++ ([WireCall.beginTransmission 0x0B, WireCall.write [command]]
          ++ if (commandWritten w command p).1 = 1 then
              [WireCall.endTransmission d.i2cWriteThenRead]
                ++ (if (commandEnded w d command p).1 = 0 then
                    [WireCall.requestFrom 0x0B 3 d.i2cRead.toNat]
                      ++ (if (replyRequested w d command p).1 = 3 then
                          [WireCall.read, WireCall.read, WireCall.read] else [])
                  else [])
            else []) := by
  have hreads : (afterReads w 3 (replyRequested w d command p).2).log
      = (replyRequested w d command p).2.log ++ [WireCall.read, WireCall.read, WireCall.read] := by
    simp [afterReads, wireRead]
  have hreq : (replyRequested w d command p).2.log
      = (commandEnded w d command p).2.log ++ [WireCall.requestFrom 0x0B 3 d.i2cRead.toNat] := by
    simp [replyRequested, wireRequestFrom, LC709204F_I2CADDR]
  have hend : (commandEnded w d command p).2.log
      = (commandWritten w command p).2.log ++ [WireCall.endTransmission d.i2cWriteThenRead] := by
    simp [commandEnded, wireEndTransmission]
  have hwr : (commandWritten w command p).2.log
      = p.log ++ [WireCall.beginTransmission 0x0B, WireCall.write [command]] := by
    simp [commandWritten, wireWrite, wireBeginTransmission, LC709204F_I2CADDR]
  rw [readWord_eq]
  by_cases h1 : (commandWritten w command p).1 = 1
  · by_cases h2 : (commandEnded w d command p).1 = 0
    · by_cases h3 : (replyRequested w d command p).1 = 3
      · simp only [h1, h2, h3, ne_eq, not_true_eq_false, if_false, if_true]
        split <;> simp [hreads, hreq, hend, hwr]
      · simp only [h1, h2, h3, ne_eq, not_true_eq_false, not_false_eq_true, if_false, if_true]
        simp [hreq, hend, hwr]
    · simp only [h1, h2, ne_eq, not_true_eq_false, not_false_eq_true, if_false, if_true]
      simp [hend, hwr]
  · simp only [h1, ne_eq, not_false_eq_true, if_true, if_false]
    simp [hwr]

/-- C5: on a bus whose write of the register address and whose 3-byte read both succeed and
which delivers the bytes `[b0, b1, b2]`, `readWord(c, &v)` returns true if and only if
`b2 = crc8([0x16, c, 0x17, b0, b1])`, and when it returns true it stores
`v = (b1 << 8) | b0`. -/
theorem readWord_accepts_iff_checksum (w : TwoWire σ) (d : StopDefaults) (c data : Nat)
    (p : Port σ) (b0 b1 b2 : Nat)
    (hwrite : (commandWritten w c p).1 = 1) (hend : (commandEnded w d c p).1 = 0)
    (hrecv : (replyRequested w d c p).1 = 3)
    (h0 : deliveredByte w 0 (replyRequested w d c p).2 = b0)
    (h1 : deliveredByte w 1 (replyRequested w d c p).2 = b1)
    (h2 : deliveredByte w 2 (replyRequested w d c p).2 = b2) :
    ((readWord w d c data p).1 = true ↔ b2 = crc8 [0x16, c, 0x17, b0, b1] 5) ∧
    ((readWord w d c data p).1 = true → (readWord w d c data p).2.1 = (b1 <<< 8) ||| b0) := by
  have hb1 : b1 < 256 := h1 ▸ deliveredByte_lt w 1 _
  have hsh : (b1 <<< 8) % 65536 = b1 <<< 8 := by
    apply Nat.mod_eq_of_lt
    rw [Nat.shiftLeft_eq]
    omega
  rw [readWord_eq]
  simp only [hwrite, hend, hrecv, h0, h1, h2, ne_eq, not_true_eq_false, if_false]
  by_cases hcrc : crc8 [0x16, c, 0x17, b0, b1] 5 = b2
  · simp [hcrc, hsh]
  · have hcrc2 : ¬ b2 = crc8 [0x16, c, 0x17, b0, b1] 5 := fun h => hcrc h.symm
    simp [hcrc, hcrc2]

set_option maxRecDepth 100000 in
theorem readWord_accepts_iff_checksum_witness :
    ((commandWritten (replayBus 1 0 3) 0x0C ⟨[0x34, 0x12, 0xF6], []⟩).1 = 1 ∧
      (commandEnded (replayBus 1 0 3) ⟨false, true, true⟩ 0x0C ⟨[0x34, 0x12, 0xF6], []⟩).1 = 0 ∧
      (replyRequested (replayBus 1 0 3) ⟨false, true, true⟩ 0x0C ⟨[0x34, 0x12, 0xF6], []⟩).1 = 3) ∧
    (((readWord (replayBus 1 0 3) ⟨false, true, true⟩ 0x0C 0 ⟨[0x34, 0x12, 0xF6], []⟩).1 = true
        ↔ 0xF6 = crc8 [0x16, 0x0C, 0x17, 0x34, 0x12] 5) ∧
      ((readWord (replayBus 1 0 3) ⟨false, true, true⟩ 0x0C 0 ⟨[0x34, 0x12, 0xF6], []⟩).1 = true
        → (readWord (replayBus 1 0 3) ⟨false, true, true⟩ 0x0C 0 ⟨[0x34, 0x12, 0xF6], []⟩).2.1
            = (0x12 <<< 8) ||| 0x34)) :=
  ⟨⟨rfl, rfl, rfl⟩,
    readWord_accepts_iff_checksum (replayBus 1 0 3) ⟨false, true, true⟩ 0x0C 0
      ⟨[0x34, 0x12, 0xF6], []⟩ 0x34 0x12 0xF6 rfl rfl rfl (by decide) (by decide) (by decide)⟩

/-- C6: `readWord(c, ..)` issues exactly one bus write to device 0x0B whose payload is the
single byte `[c]`, closed with the bus held open (`endTransmission(false)`, given that the
default `stop` of `i2cWriteThenRead` is false); then, only if that write succeeded, exactly
one `requestFrom` for exactly 3 bytes from device 0x0B, followed by the 3 `read` calls when
3 bytes were received.  Nothing is repeated. -/
theorem readWord_bus_calls (w : TwoWire σ) (d : StopDefaults) (c data : Nat) (p : Port σ)
    (hopen : d.i2cWriteThenRead = false) :
    callsSince p.log.length (readWord w d c data p).2.2
      = [WireCall.beginTransmission 0x0B, WireCall.write [c]]
        ++ if (commandWritten w c p).1 = 1 then
            [WireCall.endTransmission false]
              ++ (if (commandEnded w d c p).1 = 0 then
                  [WireCall.requestFrom 0x0B 3 d.i2cRead.toNat]
                    ++ (if (replyRequested w d c p).1 = 3 then
                        [WireCall.read, WireCall.read, WireCall.read] else [])
                else [])
          else [] := by
  apply callsSince_append
  rw [readWord_log, hopen]

theorem readWord_bus_calls_witness :
    (StopDefaults.mk false true true).i2cWriteThenRead = false ∧
    callsSince (Port.mk ([0x34, 0x12, 0xF6] : List Int) []).log.length
        (readWord (replayBus 1 0 3) ⟨false, true, true⟩ 0x0C 0 ⟨[0x34, 0x12, 0xF6], []⟩).2.2
      = [WireCall.beginTransmission 0x0B, WireCall.write [0x0C]]
        ++ if (commandWritten (replayBus 1 0 3) 0x0C ⟨[0x34, 0x12, 0xF6], []⟩).1 = 1 then
            [WireCall.endTransmission false]
              ++ (if (commandEnded (replayBus 1 0 3) ⟨false, true, true⟩ 0x0C
                    ⟨[0x34, 0x12, 0xF6], []⟩).1 = 0 then
                  [WireCall.requestFrom 0x0B 3 (StopDefaults.mk false true true).i2cRead.toNat]
                    ++ (if (replyRequested (replayBus 1 0 3) ⟨false, true, true⟩ 0x0C
                          ⟨[0x34, 0x12, 0xF6], []⟩).1 = 3 then
                        [WireCall.read, WireCall.read, WireCall.read] else [])
                else [])
          else [] :=
  ⟨rfl, readWord_bus_calls (replayBus 1 0 3) ⟨false, true, true⟩ 0x0C 0
    ⟨[0x34, 0x12, 0xF6], []⟩ rfl⟩

/-- C8: if the bus write of the register address fails (the byte is not accepted, or the
completion status is non-zero), or the bus read delivers a number of bytes different from the
3 requested, `readWord` returns false and leaves `*data` unchanged; it does not fetch a
single byte from the bus (no `read` call), so no checksum is compared, whatever the bus
would deliver. -/
theorem readWord_bus_failure (w : TwoWire σ) (d : StopDefaults) (c data : Nat) (p : Port σ)
    (hfail : (commandWritten w c p).1 ≠ 1 ∨ (commandEnded w d c p).1 ≠ 0
      ∨ (replyRequested w d c p).1 ≠ 3) :
    (readWord w d c data p).1 = false ∧ (readWord w d c data p).2.1 = data ∧
    WireCall.read ∉ callsSince p.log.length (readWord w d c data p).2.2 := by
  rw [callsSince_append p _ _ (readWord_log w d c data p), readWord_eq]
  by_cases h1 : (commandWritten w c p).1 = 1
  · by_cases h2 : (commandEnded w d c p).1 = 0
    · have h3 : ¬ (replyRequested w d c p).1 = 3 := by
        rcases hfail with h | h | h
        · exact absurd h1 h
        · exact absurd h2 h
        · exact h
      simp [h1, h2, h3]
    · simp [h1, h2]
  · simp [h1]

theorem readWord_bus_failure_witness :
    ((commandWritten (replayBus 1 0 2) 0x0C ⟨[0x34, 0x12], []⟩).1 ≠ 1
      ∨ (commandEnded (replayBus 1 0 2) ⟨false, true, true⟩ 0x0C ⟨[0x34, 0x12], []⟩).1 ≠ 0
      ∨ (replyRequested (replayBus 1 0 2) ⟨false, true, true⟩ 0x0C ⟨[0x34, 0x12], []⟩).1 ≠ 3) ∧
    ((readWord (replayBus 1 0 2) ⟨false, true, true⟩ 0x0C 0x5555 ⟨[0x34, 0x12], []⟩).1 = false ∧
      (readWord (replayBus 1 0 2) ⟨false, true, true⟩ 0x0C 0x5555 ⟨[0x34, 0x12], []⟩).2.1
        = 0x5555 ∧
      WireCall.read ∉ callsSince (Port.mk ([0x34, 0x12] : List Int) []).log.length
        (readWord (replayBus 1 0 2) ⟨false, true, true⟩ 0x0C 0x5555 ⟨[0x34, 0x12], []⟩).2.2) :=
  ⟨Or.inr (Or.inr (by decide)),
    readWord_bus_failure (replayBus 1 0 2) ⟨false, true, true⟩ 0x0C 0x5555 ⟨[0x34, 0x12], []⟩
      (Or.inr (Or.inr (by decide)))⟩

theorem crc8Round_inverse :
    ∀ c < 256, (if crc8Round c % 2 = 1 then ((crc8Round c ^^^ 7) >>> 1) + 128
      else crc8Round c >>> 1) = c := by
  decide!

theorem crc8Round_injective (a b : Nat) (ha : a < 256) (hb : b < 256)
    (h : crc8Round a = crc8Round b) : a = b := by
  have h1 := crc8Round_inverse a ha
  have h2 := crc8Round_inverse b hb
  rw [h] at h1
  exact h1.symm.trans h2

theorem crc8Bits_injective (n a b : Nat) (ha : a < 256) (hb : b < 256)
    (h : crc8Bits n a = crc8Bits n b) : a = b := by
  induction n generalizing a b with
  | zero => simpa [crc8Bits] using h
  | succ n ih =>
    simp only [crc8Bits] at h
    exact crc8Round_injective a b ha hb (ih _ _ (crc8Round_lt a) (crc8Round_lt b) h)

theorem crc8Bits_eight_lt (c : Nat) : crc8Bits 8 c < 256 :=
  crc8Bits_lt 7 (crc8Round c) (crc8Round_lt c)

theorem xor_lt_256 (a b : Nat) (ha : a < 256) (hb : b < 256) : a ^^^ b < 256 := by
  have h : a ^^^ b < 2 ^ 8 := Nat.xor_lt_two_pow (n := 8) (by omega) (by omega)
  omega

/-- One more message byte: equal checksums after the byte mean equal bytes. -/
theorem crc8_step_injective (s a b : Nat) (hs : s < 256) (ha : a < 256) (hb : b < 256)
    (h : crc8Bits 8 (s ^^^ a) = crc8Bits 8 (s ^^^ b)) : a = b :=
  Nat.xor_right_injective
    (crc8Bits_injective 8 (s ^^^ a) (s ^^^ b) (xor_lt_256 s a hs ha) (xor_lt_256 s b hs hb) h)

theorem crc8_reply_eq (c b0 b1 : Nat) :
    crc8 [0x16, c, 0x17, b0, b1] 5
      = crc8Bits 8 (crc8Bits 8 (crc8 [0x16, c, 0x17] 3 ^^^ b0) ^^^ b1) := rfl

theorem crc8_reply_low_injective (c b0 b0' b1 : Nat) (h0 : b0 < 256) (h0' : b0' < 256)
    (h1 : b1 < 256)
    (h : crc8 [0x16, c, 0x17, b0, b1] 5 = crc8 [0x16, c, 0x17, b0', b1] 5) : b0 = b0' := by
  rw [crc8_reply_eq c b0 b1, crc8_reply_eq c b0' b1] at h
  generalize hs : crc8 [0x16, c, 0x17] 3 = s at h
  have hslt : s < 256 := hs ▸ crc8_lt [0x16, c, 0x17] 3
  have h2 : crc8Bits 8 (s ^^^ b0) ^^^ b1 = crc8Bits 8 (s ^^^ b0') ^^^ b1 :=
    crc8Bits_injective 8 _ _ (xor_lt_256 _ b1 (crc8Bits_eight_lt _) h1)
      (xor_lt_256 _ b1 (crc8Bits_eight_lt _) h1) h
  exact crc8_step_injective s b0 b0' hslt h0 h0' (Nat.xor_left_injective h2)

theorem crc8_reply_high_injective (c b0 b1 b1' : Nat) (h1 : b1 < 256) (h1' : b1' < 256)
    (h : crc8 [0x16, c, 0x17, b0, b1] 5 = crc8 [0x16, c, 0x17, b0, b1'] 5) : b1 = b1' := by
  rw [crc8_reply_eq c b0 b1, crc8_reply_eq c b0 b1'] at h
  have ht : crc8Bits 8 (crc8 [0x16, c, 0x17] 3 ^^^ b0) < 256 := crc8Bits_eight_lt _
  generalize crc8Bits 8 (crc8 [0x16, c, 0x17] 3 ^^^ b0) = t at h ht
  exact crc8_step_injective t b1 b1' ht h1 h1' h

/-- C7: single-byte corruption is always detected.  Let `[b0, b1, b2]` be a response that
`readWord(c, ..)` accepts (`b2 = crc8([0x16, c, 0x17, b0, b1])`).  If the bus delivers a
response that differs from it in exactly one of the three byte positions, `readWord`
returns false and `*data` keeps its old value: the corrupted value is not stored. -/
theorem readWord_detects_single_byte_corruption (w : TwoWire σ) (d : StopDefaults)
    (c data : Nat) (p : Port σ) (b0 b1 b2 : Nat)
    (hb0 : b0 < 256) (hb1 : b1 < 256)
    (haccepted : b2 = crc8 [0x16, c, 0x17, b0, b1] 5)
    (hwrite : (commandWritten w c p).1 = 1) (hend : (commandEnded w d c p).1 = 0)
    (hrecv : (replyRequested w d c p).1 = 3)
    (hcorrupt :
      (deliveredByte w 0 (replyRequested w d c p).2 ≠ b0
        ∧ deliveredByte w 1 (replyRequested w d c p).2 = b1
        ∧ deliveredByte w 2 (replyRequested w d c p).2 = b2)
      ∨ (deliveredByte w 0 (replyRequested w d c p).2 = b0
        ∧ deliveredByte w 1 (replyRequested w d c p).2 ≠ b1
        ∧ deliveredByte w 2 (replyRequested w d c p).2 = b2)
      ∨ (deliveredByte w 0 (replyRequested w d c p).2 = b0
        ∧ deliveredByte w 1 (replyRequested w d c p).2 = b1
        ∧ deliveredByte w 2 (replyRequested w d c p).2 ≠ b2)) :
    (readWord w d c data p).1 = false ∧ (readWord w d c data p).2.1 = data := by
  have hmismatch : crc8 [0x16, c, 0x17, deliveredByte w 0 (replyRequested w d c p).2,
        deliveredByte w 1 (replyRequested w d c p).2] 5
      ≠ deliveredByte w 2 (replyRequested w d c p).2 := by
    rcases hcorrupt with ⟨h0, h1, h2⟩ | ⟨h0, h1, h2⟩ | ⟨h0, h1, h2⟩
    · intro h
      rw [h1, h2, haccepted] at h
      exact h0 (crc8_reply_low_injective c _ b0 b1 (deliveredByte_lt w 0 _) hb0 hb1 h)
    · intro h
      rw [h0, h2, haccepted] at h
      exact h1 (crc8_reply_high_injective c b0 _ b1 (deliveredByte_lt w 1 _) hb1 h)
    · intro h
      rw [h0, h1, ← haccepted] at h
      exact h2 h.symm
  rw [readWord_eq]
  simp only [hwrite, hend, hrecv, ne_eq, not_true_eq_false, if_false]
  rw [if_pos hmismatch]
  exact ⟨rfl, rfl⟩

set_option maxRecDepth 100000 in
theorem readWord_detects_single_byte_corruption_witness :
    ((0x34 : Nat) < 256 ∧ (0x12 : Nat) < 256 ∧ 0xF6 = crc8 [0x16, 0x0C, 0x17, 0x34, 0x12] 5 ∧
      (commandWritten (replayBus 1 0 3) 0x0C ⟨[0x35, 0x12, 0xF6], []⟩).1 = 1 ∧
      (commandEnded (replayBus 1 0 3) ⟨false, true, true⟩ 0x0C ⟨[0x35, 0x12, 0xF6], []⟩).1 = 0 ∧
      (replyRequested (replayBus 1 0 3) ⟨false, true, true⟩ 0x0C ⟨[0x35, 0x12, 0xF6], []⟩).1 = 3 ∧
      deliveredByte (replayBus 1 0 3) 0
          (replyRequested (replayBus 1 0 3) ⟨false, true, true⟩ 0x0C
            ⟨[0x35, 0x12, 0xF6], []⟩).2 ≠ 0x34 ∧
      deliveredByte (replayBus 1 0 3) 1
          (replyRequested (replayBus 1 0 3) ⟨false, true, true⟩ 0x0C
            ⟨[0x35, 0x12, 0xF6], []⟩).2 = 0x12 ∧
      deliveredByte (replayBus 1 0 3) 2
          (replyRequested (replayBus 1 0 3) ⟨false, true, true⟩ 0x0C
            ⟨[0x35, 0x12, 0xF6], []⟩).2 = 0xF6) ∧
    ((readWord (replayBus 1 0 3) ⟨false, true, true⟩ 0x0C 0x5555
        ⟨[0x35, 0x12, 0xF6], []⟩).1 = false ∧
      (readWord (replayBus 1 0 3) ⟨false, true, true⟩ 0x0C 0x5555
        ⟨[0x35, 0x12, 0xF6], []⟩).2.1 = 0x5555) :=
  ⟨⟨by decide, by decide, by decide, rfl, rfl, rfl, by decide, by decide, by decide⟩,
    readWord_detects_single_byte_corruption (replayBus 1 0 3) ⟨false, true, true⟩ 0x0C 0x5555
      ⟨[0x35, 0x12, 0xF6], []⟩ 0x34 0x12 0xF6 (by decide) (by decide) (by decide) rfl rfl rfl
      (Or.inl ⟨by decide, by decide, by decide⟩)⟩

theorem split_word (v : Nat) : (v &&& 0xFF) + 256 * (v >>> 8) = v := by
  have h : (0xFF : Nat) = 2 ^ 8 - 1 := by norm_num
  rw [h, Nat.and_pow_two_sub_one_eq_mod, Nat.shiftRight_eq_div_pow]
  omega

theorem echo_frameWritten (strict : Bool) (c v : Nat) (p : Port EchoState) :
    frameWritten (echoDevice strict) c v p
      = (4, { bus := { regs := p.bus.regs, selected := true,
                       frame := (writeWordFrame c v).drop 1,
                       pointer := p.bus.pointer, pending := p.bus.pending },
              log := p.log ++ [WireCall.beginTransmission 0x0B,
                WireCall.write ((writeWordFrame c v).drop 1)] }) := by
  simp [frameWritten, wireWrite, wireBeginTransmission, echoDevice, writeWordFrame,
    LC709204F_I2CADDR]

theorem echo_frameEnded (strict : Bool) (d : StopDefaults) (c v : Nat) (p : Port EchoState)
    (hv : v < 65536) :
    frameEnded (echoDevice strict) d c v p
      = (0, { bus := { regs := Function.update p.bus.regs c v, selected := true, frame := [],
                       pointer := p.bus.pointer, pending := p.bus.pending },
              log := p.log ++ [WireCall.beginTransmission 0x0B,
                WireCall.write ((writeWordFrame c v).drop 1),
                WireCall.endTransmission d.i2cWrite] }) := by
  unfold frameEnded
  rw [echo_frameWritten]
  simp [wireEndTransmission, echoDevice, writeWordFrame_eq c v hv, split_word v]

theorem echo_writeWord (strict : Bool) (d : StopDefaults) (c v : Nat) (p : Port EchoState)
    (hv : v < 65536) :
    (writeWord (echoDevice strict) d c v p).1 = true ∧
    (writeWord (echoDevice strict) d c v p).2.bus.regs = Function.update p.bus.regs c v := by
  rw [writeWord_eq, echo_frameEnded strict d c v p hv, echo_frameWritten]
  simp

theorem join_word (v : Nat) (hv : v < 65536) :
    ((v / 256) <<< 8) % 65536 ||| v % 256 = v := by
  have h1 : ((v / 256) <<< 8) % 65536 = 2 ^ 8 * (v / 256) := by
    rw [Nat.shiftLeft_eq]
    omega
  have h2 : v % 256 < 2 ^ 8 := by omega
  rw [h1, ← Nat.mul_add_lt_is_or h2]
  omega

theorem echo_commandEnded (strict : Bool) (d : StopDefaults) (c : Nat) (p : Port EchoState) :
    commandEnded (echoDevice strict) d c p
      = (0, { bus := { regs := p.bus.regs, selected := true, frame := [], pointer := c,
                       pending := p.bus.pending },
              log := p.log ++ [WireCall.beginTransmission 0x0B, WireCall.write [c],
                WireCall.endTransmission d.i2cWriteThenRead] }) := by
  simp [commandEnded, commandWritten, wireEndTransmission, wireWrite, wireBeginTransmission,
    echoDevice, LC709204F_I2CADDR]

theorem echo_replyRequested (strict : Bool) (d : StopDefaults) (c : Nat) (p : Port EchoState) :
    replyRequested (echoDevice strict) d c p
      = (3, { bus := { regs := p.bus.regs, selected := true, frame := [], pointer := c,
                       pending := echoReply c (p.bus.regs c) },
              log := p.log ++ [WireCall.beginTransmission 0x0B, WireCall.write [c],
                WireCall.endTransmission d.i2cWriteThenRead,
                WireCall.requestFrom 0x0B 3 d.i2cRead.toNat] }) := by
  unfold replyRequested
  rw [echo_commandEnded]
  simp [wireRequestFrom, echoDevice, LC709204F_I2CADDR, echoReply]

theorem echo_delivered (strict : Bool) (q : Port EchoState) (b0 b1 b2 : Nat)
    (hq : q.bus.pending = [b0, b1, b2]) (h0 : b0 < 256) (h1 : b1 < 256) (h2 : b2 < 256) :
    deliveredByte (echoDevice strict) 0 q = b0 ∧ deliveredByte (echoDevice strict) 1 q = b1 ∧
    deliveredByte (echoDevice strict) 2 q = b2 ∧
    (afterReads (echoDevice strict) 3 q).bus.regs = q.bus.regs := by
  have hb : ∀ b : Nat, b < 256 → ((b : Int) % 256).toNat = b := by
    intro b hb
    omega
  refine ⟨?_, ?_, ?_, ?_⟩
  · simp [deliveredByte, afterReads, wireRead, echoDevice, hq]
    exact hb b0 h0
  · simp [deliveredByte, afterReads, wireRead, echoDevice, hq]
    exact hb b1 h1
  · simp [deliveredByte, afterReads, wireRead, echoDevice, hq]
    exact hb b2 h2
  · simp [afterReads, wireRead, echoDevice]

theorem echo_readWord (strict : Bool) (d : StopDefaults) (c data : Nat) (p : Port EchoState)
    (hv : p.bus.regs c < 65536) :
    (readWord (echoDevice strict) d c data p).1 = true ∧
    (readWord (echoDevice strict) d c data p).2.1 = p.bus.regs c ∧
    (readWord (echoDevice strict) d c data p).2.2.bus.regs = p.bus.regs := by
  have hlo : p.bus.regs c % 256 < 256 := Nat.mod_lt _ (by norm_num)
  have hhi : p.bus.regs c / 256 < 256 := by omega
  have hcw : (commandWritten (echoDevice strict) c p).1 = 1 := by
    simp [commandWritten, wireWrite, echoDevice]
  have hce : (commandEnded (echoDevice strict) d c p).1 = 0 := by
    rw [echo_commandEnded]
  have hrr : (replyRequested (echoDevice strict) d c p).1 = 3 := by
    rw [echo_replyRequested]
  have hpend : (replyRequested (echoDevice strict) d c p).2.bus.pending
      = [p.bus.regs c % 256, p.bus.regs c / 256,
          crc8 [0x16, c, 0x17, p.bus.regs c % 256, p.bus.regs c / 256] 5] := by
    rw [echo_replyRequested]
    rfl
  have hregs : (replyRequested (echoDevice strict) d c p).2.bus.regs = p.bus.regs := by
    rw [echo_replyRequested]
  obtain ⟨h0, h1, h2, h3⟩ := echo_delivered strict (replyRequested (echoDevice strict) d c p).2
    _ _ _ hpend hlo hhi (crc8_lt _ _)
  rw [readWord_eq]
  simp only [hcw, hce, hrr, h0, h1, h2, ne_eq, not_true_eq_false, if_false]
  exact ⟨trivial, join_word _ hv, h3.trans hregs⟩

theorem echo_roundtrip_word (strict : Bool) (d : StopDefaults) (c v data : Nat)
    (p : Port EchoState) (hv : v < 65536) :
    (writeWord (echoDevice strict) d c v p).1 = true ∧
    (readWord (echoDevice strict) d c data (writeWord (echoDevice strict) d c v p).2).1 = true ∧
    (readWord (echoDevice strict) d c data (writeWord (echoDevice strict) d c v p).2).2.1
      = v := by
  obtain ⟨hw1, hw2⟩ := echo_writeWord strict d c v p hv
  have hreg : (writeWord (echoDevice strict) d c v p).2.bus.regs c = v := by
    rw [hw2]; simp
  obtain ⟨hr1, hr2, _⟩ :=
    echo_readWord strict d c data (writeWord (echoDevice strict) d c v p).2 (by rw [hreg]; exact hv)
  exact ⟨hw1, hr1, hr2.trans hreg⟩

theorem getAPT_eq (w : TwoWire σ) (d : StopDefaults) (p : Port σ) :
    getAPT w d p = (readWord w d LC709204F_REG_APT 0 p).2 := rfl

theorem setAPT_eq (w : TwoWire σ) (d : StopDefaults) (b : Nat) (p : Port σ) :
    setAPT w d b p = writeWord w d LC709204F_REG_APT b p := rfl

theorem getRSOC_eq (w : TwoWire σ) (d : StopDefaults) (p : Port σ) :
    getRSOC w d p = (readWord w d LC709204F_REG_RSOC 0 p).2 := rfl

theorem setRSOC_eq (w : TwoWire σ) (d : StopDefaults) (b : Nat) (p : Port σ) :
    setRSOC w d b p = writeWord w d LC709204F_REG_RSOC b p := rfl

theorem getStatusBit_eq (w : TwoWire σ) (d : StopDefaults) (p : Port σ) :
    getStatusBit w d p = (readWord w d LC709204F_REG_STATUS_BIT 0 p).2 := rfl

theorem setStatusBit_eq (w : TwoWire σ) (d : StopDefaults) (b : Nat) (p : Port σ) :
    setStatusBit w d b p = writeWord w d LC709204F_REG_STATUS_BIT b p := rfl

theorem getCurrentDirection_eq (w : TwoWire σ) (d : StopDefaults) (p : Port σ) :
    getCurrentDirection w d p = (readWord w d LC709204F_REG_CURRENT_DIRECTION 0 p).2 := rfl

theorem setCurrentDirection_eq (w : TwoWire σ) (d : StopDefaults)
    (m : lc709204f_current_direction_t) (p : Port σ) :
    setCurrentDirection w d m p = writeWord w d LC709204F_REG_BEFORE_RSOC m.val p := rfl

theorem charge_mode_val :
    lc709204f_current_direction_t.LC709204F_CURRENT_DIRECTION_CHARGE_MODE.val = 0x0001 := rfl

theorem echo_setAPT_getAPT (strict : Bool) (d : StopDefaults) (v : Nat) (p : Port EchoState)
    (hv : v < 65536) :
    (setAPT (echoDevice strict) d v p).1 = true ∧
    (getAPT (echoDevice strict) d (setAPT (echoDevice strict) d v p).2).1 = v := by
  rw [getAPT_eq, setAPT_eq]
  obtain ⟨h1, _, h3⟩ := echo_roundtrip_word strict d LC709204F_REG_APT v 0 p hv
  exact ⟨h1, h3⟩

theorem echo_setRSOC_getRSOC (strict : Bool) (d : StopDefaults) (v : Nat) (p : Port EchoState)
    (hv : v < 65536) :
    (setRSOC (echoDevice strict) d v p).1 = true ∧
    (getRSOC (echoDevice strict) d (setRSOC (echoDevice strict) d v p).2).1 = v := by
  rw [getRSOC_eq, setRSOC_eq]
  obtain ⟨h1, _, h3⟩ := echo_roundtrip_word strict d LC709204F_REG_RSOC v 0 p hv
  exact ⟨h1, h3⟩

theorem echo_setStatusBit_getStatusBit (strict : Bool) (d : StopDefaults) (v : Nat)
    (p : Port EchoState) (hv : v < 65536) :
    (setStatusBit (echoDevice strict) d v p).1 = true ∧
    (getStatusBit (echoDevice strict) d (setStatusBit (echoDevice strict) d v p).2).1 = v := by
  rw [getStatusBit_eq, setStatusBit_eq]
  obtain ⟨h1, _, h3⟩ := echo_roundtrip_word strict d LC709204F_REG_STATUS_BIT v 0 p hv
  exact ⟨h1, h3⟩

theorem echo_setCurrentDirection_charge (strict : Bool) (d : StopDefaults) :
    (setCurrentDirection (echoDevice strict) d
      lc709204f_current_direction_t.LC709204F_CURRENT_DIRECTION_CHARGE_MODE
      ⟨echoPowerOn, []⟩).1 = true ∧
    (getCurrentDirection (echoDevice strict) d
      (setCurrentDirection (echoDevice strict) d
        lc709204f_current_direction_t.LC709204F_CURRENT_DIRECTION_CHARGE_MODE
        ⟨echoPowerOn, []⟩).2).1 = 0x0000 := by
  rw [getCurrentDirection_eq, setCurrentDirection_eq, charge_mode_val]
  obtain ⟨hw1, hw2⟩ := echo_writeWord strict d LC709204F_REG_BEFORE_RSOC 1
    ⟨echoPowerOn, []⟩ (by norm_num)
  have hreg : (writeWord (echoDevice strict) d LC709204F_REG_BEFORE_RSOC 1
      ⟨echoPowerOn, []⟩).2.bus.regs LC709204F_REG_CURRENT_DIRECTION = 0 := by
    rw [hw2]
    simp [echoPowerOn, LC709204F_REG_BEFORE_RSOC, LC709204F_REG_CURRENT_DIRECTION,
      Function.update]
  obtain ⟨_, hr2, _⟩ := echo_readWord strict d LC709204F_REG_CURRENT_DIRECTION 0
    (writeWord (echoDevice strict) d LC709204F_REG_BEFORE_RSOC 1 ⟨echoPowerOn, []⟩).2
    (by rw [hreg]; norm_num)
  exact ⟨hw1, hr2.trans hreg⟩

/-- C9: against the echoing device at address 0x0B, for every register address `c` and every
value `v` in 0x0000..0xFFFF, `writeWord(c, v)` followed by `readWord(c, &r)` both return
true and `r = v`; so `setAPT`/`getAPT`, `setRSOC`/`getRSOC` and `setStatusBit`/`getStatusBit`
read back the value written.  The pair `setCurrentDirection`/`getCurrentDirection` does not:
the setter writes register 0x04 while the getter reads register 0x0A, so after a successful
`setCurrentDirection(LC709204F_CURRENT_DIRECTION_CHARGE_MODE)` (value 0x0001) on the
powered-on device `getCurrentDirection()` returns 0x0000. -/
theorem echo_device_read_back :
    (∀ (strict : Bool) (d : StopDefaults) (c v data : Nat) (p : Port EchoState), v < 65536 →
      (writeWord (echoDevice strict) d c v p).1 = true ∧
      (readWord (echoDevice strict) d c data (writeWord (echoDevice strict) d c v p).2).1
        = true ∧
      (readWord (echoDevice strict) d c data (writeWord (echoDevice strict) d c v p).2).2.1
        = v) ∧
    (∀ (strict : Bool) (d : StopDefaults) (v : Nat) (p : Port EchoState), v < 65536 →
      (setAPT (echoDevice strict) d v p).1 = true ∧
      (getAPT (echoDevice strict) d (setAPT (echoDevice strict) d v p).2).1 = v) ∧
    (∀ (strict : Bool) (d : StopDefaults) (v : Nat) (p : Port EchoState), v < 65536 →
      (setRSOC (echoDevice strict) d v p).1 = true ∧
      (getRSOC (echoDevice strict) d (setRSOC (echoDevice strict) d v p).2).1 = v) ∧
    (∀ (strict : Bool) (d : StopDefaults) (v : Nat) (p : Port EchoState), v < 65536 →
      (setStatusBit (echoDevice strict) d v p).1 = true ∧
      (getStatusBit (echoDevice strict) d (setStatusBit (echoDevice strict) d v p).2).1 = v) ∧
    (∀ (strict : Bool) (d : StopDefaults),
      lc709204f_current_direction_t.LC709204F_CURRENT_DIRECTION_CHARGE_MODE.val = 0x0001 ∧
      (setCurrentDirection (echoDevice strict) d
        lc709204f_current_direction_t.LC709204F_CURRENT_DIRECTION_CHARGE_MODE
        ⟨echoPowerOn, []⟩).1 = true ∧
      (getCurrentDirection (echoDevice strict) d
        (setCurrentDirection (echoDevice strict) d
          lc709204f_current_direction_t.LC709204F_CURRENT_DIRECTION_CHARGE_MODE
          ⟨echoPowerOn, []⟩).2).1 = 0x0000) := by
  exact ⟨fun strict d c v data p hv => echo_roundtrip_word strict d c v data p hv,
    fun strict d v p hv => echo_setAPT_getAPT strict d v p hv,
    fun strict d v p hv => echo_setRSOC_getRSOC strict d v p hv,
    fun strict d v p hv => echo_setStatusBit_getStatusBit strict d v p hv,
    fun strict d => ⟨charge_mode_val, (echo_setCurrentDirection_charge strict d).1,
      (echo_setCurrentDirection_charge strict d).2⟩⟩

theorem echo_device_read_back_witness :
    (0x1234 : Nat) < 65536 ∧
    (writeWord (echoDevice true) ⟨false, true, true⟩ 0x0C 0x1234 ⟨echoPowerOn, []⟩).1 = true ∧
    (readWord (echoDevice true) ⟨false, true, true⟩ 0x0C 0
      (writeWord (echoDevice true) ⟨false, true, true⟩ 0x0C 0x1234 ⟨echoPowerOn, []⟩).2).1
        = true ∧
    (readWord (echoDevice true) ⟨false, true, true⟩ 0x0C 0
      (writeWord (echoDevice true) ⟨false, true, true⟩ 0x0C 0x1234 ⟨echoPowerOn, []⟩).2).2.1
        = 0x1234 :=
  ⟨by decide, echo_device_read_back.1 true ⟨false, true, true⟩ 0x0C 0x1234 0
    ⟨echoPowerOn, []⟩ (by decide)⟩

/-- C10: 32-bit split/join round trip.  For every `x` in 0..0xFFFFFFFF, with
`lower = (uint16_t) x` and `higher = (uint16_t)(x >> 16)` as the 32-bit setters compute them,
the getters' `higher * 0x10000 + lower` (evaluated in wrapping 32-bit `int` arithmetic and
returned as `uint32_t`) is `x`, also when `higher >= 0x8000`. -/
theorem joinWords_split (x : Nat) (hx : x < 4294967296) :
    joinWords (toUInt16 (x : Int)) (toUInt16 ((x >>> 16 : Nat) : Int)) = x := by
  simp only [joinWords, toUInt16, toUInt32, wrapInt32, Nat.shiftRight_eq_div_pow]
  push_cast
  omega

theorem joinWords_split_witness :
    (0xFFFF8001 : Nat) < 4294967296 ∧
    joinWords (toUInt16 ((0xFFFF8001 : Nat) : Int)) (toUInt16 ((0xFFFF8001 >>> 16 : Nat) : Int))
      = 0xFFFF8001 :=
  ⟨by decide, joinWords_split 0xFFFF8001 (by decide)⟩

/-! ### Accessors and `init` -/

theorem getTimeToEmpty_eq (w : TwoWire σ) (d : StopDefaults) (p : Port σ) :
    getTimeToEmpty w d p = (readWord w d LC709204F_REG_TIME_TO_EMPTY 0 p).2 := rfl

theorem getCellVoltage_eq (w : TwoWire σ) (d : StopDefaults) (p : Port σ) :
    getCellVoltage w d p = (readWord w d LC709204F_REG_CELL_VOLTAGE 0 p).2 := rfl

theorem setBatteryStatus_eq (w : TwoWire σ) (d : StopDefaults) (b : Nat) (p : Port σ) :
    setBatteryStatus w d b p = writeWord w d LC709204F_REG_BATTERY_STATUS b p := rfl

theorem writeWord_true_iff (w : TwoWire σ) (d : StopDefaults) (c data : Nat) (p : Port σ) :
    (writeWord w d c data p).1 = true
      ↔ (frameWritten w c data p).1 = 4 ∧ (frameEnded w d c data p).1 = 0 := by
  rw [writeWord_eq]
  by_cases h : (frameWritten w c data p).1 = 4
  · by_cases h2 : (frameEnded w d c data p).1 = 0 <;> simp [h, h2]
  · simp [h]

/-- A failed `readWord` leaves `*data` as it was. -/
theorem readWord_false_data (w : TwoWire σ) (d : StopDefaults) (c data : Nat) (p : Port σ)
    (h : (readWord w d c data p).1 = false) : (readWord w d c data p).2.1 = data := by
  rw [readWord_eq] at h ⊢
  split_ifs at h ⊢ <;> rfl

/-- A successful `readWord` stores a 16-bit value. -/
theorem readWord_true_lt (w : TwoWire σ) (d : StopDefaults) (c data : Nat) (p : Port σ)
    (h : (readWord w d c data p).1 = true) : (readWord w d c data p).2.1 < 65536 := by
  rw [readWord_eq] at h ⊢
  split_ifs at h ⊢
  have h1 := deliveredByte_lt w 1 (replyRequested w d c p).2
  have h0 := deliveredByte_lt w 0 (replyRequested w d c p).2
  have hor : ∀ a b : Nat, a < 2 ^ 16 → b < 2 ^ 16 → a ||| b < 2 ^ 16 :=
    fun a b ha hb => Nat.or_lt_two_pow ha hb
  exact hor _ _ (Nat.mod_lt _ (by norm_num)) (by omega)

set_option maxRecDepth 100000 in
/-- C11 (as stated, refuted): `getTimeToEmpty` returns 0 both on a bus where the
transaction fails (the register address is not accepted) and on a bus where it succeeds and
delivers the register content 0x0000: the returned value alone does not tell the failure. -/
theorem getTimeToEmpty_failure_not_visible :
    (readWord (replayBus 0 0 0) ⟨false, true, true⟩ LC709204F_REG_TIME_TO_EMPTY 0
      ⟨[], []⟩).1 = false ∧
    (readWord (replayBus 1 0 3) ⟨false, true, true⟩ LC709204F_REG_TIME_TO_EMPTY 0
      ⟨[0x00, 0x00, 0xF7], []⟩).1 = true ∧
    (getTimeToEmpty (replayBus 0 0 0) ⟨false, true, true⟩ ⟨[], []⟩).1
      = (getTimeToEmpty (replayBus 1 0 3) ⟨false, true, true⟩ ⟨[0x00, 0x00, 0xF7], []⟩).1 := by
  rw [getTimeToEmpty_eq, getTimeToEmpty_eq, readWord_eq, readWord_eq]
  decide

theorem init_eq (w : TwoWire σ) (d : StopDefaults) (self : Driver)
    (apa : lc709204f_apa_adjustment_t) (profile : lc709204f_battery_profile_t)
    (wire : Nat) (buses : Nat → Port σ) :
    init w d self apa profile wire buses
      = if (initStep w d apa profile (buses self._wire) 1).1 = false then
          (false, Function.update buses self._wire
            (initStep w d apa profile (buses self._wire) 1).2)
        else if (initStep w d apa profile (buses self._wire) 2).1 = false then
          (false, Function.update buses self._wire
            (initStep w d apa profile (buses self._wire) 2).2)
        else if (initStep w d apa profile (buses self._wire) 3).1 = false then
          (false, Function.update buses self._wire
            (initStep w d apa profile (buses self._wire) 3).2)
        else if (initStep w d apa profile (buses self._wire) 4).1 = false then
          (false, Function.update buses self._wire
            (initStep w d apa profile (buses self._wire) 4).2)
        else (true, Function.update buses self._wire
            (initStep w d apa profile (buses self._wire) 4).2) := rfl

theorem initWrite_lt (apa : lc709204f_apa_adjustment_t)
    (profile : lc709204f_battery_profile_t) (k : Nat) :
    (initWrite apa profile k).2 < 65536 := by
  unfold initWrite
  split
  · cases apa <;> simp [lc709204f_apa_adjustment_t.val]
  · cases profile <;> simp [lc709204f_battery_profile_t.val]
  · norm_num
  · norm_num

theorem framePayload_eq (c data : Nat) (hd : data < 65536) :
    (writeWordFrame c data).drop 1 = framePayload c data := by
  rw [writeWordFrame_eq c data hd]
  rfl

/-- The log after a successful `writeWord`. -/
theorem writeWord_true_log (w : TwoWire σ) (d : StopDefaults) (c data : Nat) (p : Port σ)
    (hd : data < 65536) (h : (writeWord w d c data p).1 = true) :
    (writeWord w d c data p).2.log = p.log ++ frameCalls d (framePayload c data) := by
  rw [writeWord_log, framePayload_eq c data hd,
    if_pos ((writeWord_true_iff w d c data p).mp h).1]
  rfl

/-- The log after a failed `writeWord`. -/
theorem writeWord_false_log (w : TwoWire σ) (d : StopDefaults) (c data : Nat) (p : Port σ)
    (hd : data < 65536) :
    (writeWord w d c data p).2.log
      = p.log ++ ([WireCall.beginTransmission 0x0B, WireCall.write (framePayload c data)]
          ++ if (frameWritten w c data p).1 = 4
              then [WireCall.endTransmission d.i2cWrite] else []) := by
  rw [writeWord_log, framePayload_eq c data hd]

theorem initStep_log (w : TwoWire σ) (d : StopDefaults) (apa : lc709204f_apa_adjustment_t)
    (profile : lc709204f_battery_profile_t) (p : Port σ) (k : Nat)
    (hok : ∀ j, 1 ≤ j → j ≤ k → (initStep w d apa profile p j).1 = true) :
    (initStep w d apa profile p k).2.log = p.log ++ initTrace d apa profile k := by
  induction k with
  | zero => simp [initStep, initTrace, wireBegin]
  | succ k ih =>
    have ih1 := ih (fun j h1 h2 => hok j h1 (Nat.le_succ_of_le h2))
    have hk := hok (k + 1) (Nat.succ_le_succ (Nat.zero_le k)) (Nat.le_refl _)
    simp only [initStep] at hk ⊢
    rw [writeWord_true_log w d _ _ _ (initWrite_lt apa profile (k + 1)) hk, ih1]
    simp [initTrace]

/-- On a bus that accepts every byte and reports status 0, `writeWord` succeeds. -/
theorem writeWord_ok (w : TwoWire σ) (d : StopDefaults) (c data : Nat) (p : Port σ)
    (hacc : ∀ (bytes : List Nat) (s : σ), (w.write bytes s).1 = bytes.length)
    (hst : ∀ (stop : Bool) (s : σ), (w.endTransmission stop s).1 = 0) :
    (writeWord w d c data p).1 = true := by
  rw [writeWord_true_iff]
  constructor
  · simp [frameWritten, wireWrite, hacc, writeWordFrame]
  · simp [frameEnded, wireEndTransmission, hst]

theorem initStep_ok (w : TwoWire σ) (d : StopDefaults) (apa : lc709204f_apa_adjustment_t)
    (profile : lc709204f_battery_profile_t) (p : Port σ)
    (hacc : ∀ (bytes : List Nat) (s : σ), (w.write bytes s).1 = bytes.length)
    (hst : ∀ (stop : Bool) (s : σ), (w.endTransmission stop s).1 = 0) (k : Nat) :
    (initStep w d apa profile p k).1 = true := by
  cases k with
  | zero => rfl
  | succ k => exact writeWord_ok w d _ _ _ hacc hst

theorem init_true_iff (w : TwoWire σ) (d : StopDefaults) (self : Driver)
    (apa : lc709204f_apa_adjustment_t) (profile : lc709204f_battery_profile_t)
    (wire : Nat) (buses : Nat → Port σ) :
    (init w d self apa profile wire buses).1 = true
      ↔ ∀ k, 1 ≤ k → k ≤ 4 → (initStep w d apa profile (buses self._wire) k).1 = true := by
  rw [init_eq]
  constructor
  · intro h k hk1 hk4
    split_ifs at h with h1 h2 h3 h4
    interval_cases k
    · simpa using h1
    · simpa using h2
    · simpa using h3
    · simpa using h4
  · intro h
    have h1 := h 1 (by norm_num) (by norm_num)
    have h2 := h 2 (by norm_num) (by norm_num)
    have h3 := h 3 (by norm_num) (by norm_num)
    have h4 := h 4 (by norm_num) (by norm_num)
    simp [h1, h2, h3, h4]

/-- C12: on a bus where every write succeeds, `init(apa, profile)` returns true and, after
`_wire->begin()`, issues exactly four register writes in this order: register 0x0B := apa,
register 0x12 := profile, register 0x15 := 0x0001, register 0x19 := 0x0040.  On any bus,
`init` returns true only if (and if) all four writes succeeded. -/
theorem init_writes_four_registers (w : TwoWire σ) (d : StopDefaults) (self : Driver)
    (apa : lc709204f_apa_adjustment_t) (profile : lc709204f_battery_profile_t)
    (wire : Nat) (buses : Nat → Port σ) :
    ((∀ (bytes : List Nat) (s : σ), (w.write bytes s).1 = bytes.length) →
      (∀ (stop : Bool) (s : σ), (w.endTransmission stop s).1 = 0) →
      (init w d self apa profile wire buses).1 = true ∧
      callsSince (buses self._wire).log.length
          ((init w d self apa profile wire buses).2 self._wire)
        = [WireCall.begin]
          ++ frameCalls d (framePayload 0x0B apa.val)
          ++ frameCalls d (framePayload 0x12 profile.val)
          ++ frameCalls d (framePayload 0x15 0x0001)
          ++ frameCalls d (framePayload 0x19 0x0040)) ∧
    ((init w d self apa profile wire buses).1 = true
      ↔ ∀ k, 1 ≤ k → k ≤ 4 → (initStep w d apa profile (buses self._wire) k).1 = true) := by
  refine ⟨fun hacc hst => ?_, init_true_iff w d self apa profile wire buses⟩
  have hall := initStep_ok w d apa profile (buses self._wire) hacc hst
  have hlog := initStep_log w d apa profile (buses self._wire) 4 (fun j _ _ => hall j)
  have hres : init w d self apa profile wire buses
      = (true, Function.update buses self._wire
          (initStep w d apa profile (buses self._wire) 4).2) := by
    rw [init_eq]
    simp [hall 1, hall 2, hall 3, hall 4]
  rw [hres]
  refine ⟨rfl, ?_⟩
  apply callsSince_append
  simp only [Function.update_same]
  rw [hlog]
  rfl

theorem init_writes_four_registers_witness :
    (init (failingBus 0) ⟨false, true, true⟩ (Driver.new 0)
        lc709204f_apa_adjustment_t.LC709204F_APA_500MAH
        lc709204f_battery_profile_t.LC709204F_BATTERY_PROFILE_3_7_V 0
        (fun _ => ⟨0, []⟩)).1 = true ∧
    callsSince (Port.mk (0 : Nat) []).log.length
        ((init (failingBus 0) ⟨false, true, true⟩ (Driver.new 0)
          lc709204f_apa_adjustment_t.LC709204F_APA_500MAH
          lc709204f_battery_profile_t.LC709204F_BATTERY_PROFILE_3_7_V 0
          (fun _ => ⟨0, []⟩)).2 (Driver.new 0)._wire)
      = [WireCall.begin]
        ++ frameCalls ⟨false, true, true⟩
            (framePayload 0x0B lc709204f_apa_adjustment_t.LC709204F_APA_500MAH.val)
        ++ frameCalls ⟨false, true, true⟩
            (framePayload 0x12
              lc709204f_battery_profile_t.LC709204F_BATTERY_PROFILE_3_7_V.val)
        ++ frameCalls ⟨false, true, true⟩ (framePayload 0x15 0x0001)
        ++ frameCalls ⟨false, true, true⟩ (framePayload 0x19 0x0040) :=
  (init_writes_four_registers (failingBus 0) ⟨false, true, true⟩ (Driver.new 0)
    lc709204f_apa_adjustment_t.LC709204F_APA_500MAH
    lc709204f_battery_profile_t.LC709204F_BATTERY_PROFILE_3_7_V 0
    (fun _ => ⟨0, []⟩)).1 (fun _ _ => rfl) (fun _ _ => rfl)

theorem init_fails_at (w : TwoWire σ) (d : StopDefaults) (self : Driver)
    (apa : lc709204f_apa_adjustment_t) (profile : lc709204f_battery_profile_t)
    (wire : Nat) (buses : Nat → Port σ) (k : Nat) (hk1 : 1 ≤ k) (hk4 : k ≤ 4)
    (hprev : ∀ j, 1 ≤ j → j < k → (initStep w d apa profile (buses self._wire) j).1 = true)
    (hfail : (initStep w d apa profile (buses self._wire) k).1 = false) :
    init w d self apa profile wire buses
      = (false, Function.update buses self._wire
          (initStep w d apa profile (buses self._wire) k).2) := by
  rw [init_eq]
  interval_cases k
  · simp [hfail]
  · have h1 := hprev 1 (by norm_num) (by norm_num)
    simp [h1, hfail]
  · have h1 := hprev 1 (by norm_num) (by norm_num)
    have h2 := hprev 2 (by norm_num) (by norm_num)
    simp [h1, h2, hfail]
  · have h1 := hprev 1 (by norm_num) (by norm_num)
    have h2 := hprev 2 (by norm_num) (by norm_num)
    have h3 := hprev 3 (by norm_num) (by norm_num)
    simp [h1, h2, h3, hfail]

/-- C13: `init` short-circuits.  If the `k`-th of its four register writes (`k` in 1..4) is
the first one to fail, `init` returns false and the port of `_wire` is left as that `k`-th
write left it: the calls are `begin`, the `k - 1` complete write frames before it and the
calls of the failed `k`-th write; none of the writes `k+1..4` is issued and nothing is
written to undo the writes `1..k-1`. -/
theorem init_short_circuits (w : TwoWire σ) (d : StopDefaults) (self : Driver)
    (apa : lc709204f_apa_adjustment_t) (profile : lc709204f_battery_profile_t)
    (wire : Nat) (buses : Nat → Port σ) (k : Nat) (hk1 : 1 ≤ k) (hk4 : k ≤ 4)
    (hprev : ∀ j, 1 ≤ j → j < k → (initStep w d apa profile (buses self._wire) j).1 = true)
    (hfail : (initStep w d apa profile (buses self._wire) k).1 = false) :
    (init w d self apa profile wire buses).1 = false ∧
    (init w d self apa profile wire buses).2 self._wire
      = (initStep w d apa profile (buses self._wire) k).2 ∧
    callsSince (buses self._wire).log.length
        ((init w d self apa profile wire buses).2 self._wire)
      = initTrace d apa profile (k - 1)
        ++ ([WireCall.beginTransmission 0x0B,
              WireCall.write (framePayload (initWrite apa profile k).1
                (initWrite apa profile k).2)]
            ++ if (frameWritten w (initWrite apa profile k).1 (initWrite apa profile k).2
                  (initStep w d apa profile (buses self._wire) (k - 1)).2).1 = 4
                then [WireCall.endTransmission d.i2cWrite] else []) := by
  rw [init_fails_at w d self apa profile wire buses k hk1 hk4 hprev hfail]
  refine ⟨rfl, Function.update_same _ _ _, ?_⟩
  apply callsSince_append
  simp only [Function.update_same]
  obtain ⟨n, rfl⟩ : ∃ n, k = n + 1 := ⟨k - 1, by omega⟩
  have hlog := initStep_log w d apa profile (buses self._wire) n
    (fun j h1 h2 => hprev j h1 (by omega))
  simp only [initStep, Nat.add_sub_cancel]
  rw [writeWord_false_log w d _ _ _ (initWrite_lt apa profile (n + 1)), hlog, List.append_assoc]

set_option maxRecDepth 100000 in
theorem init_short_circuits_witness :
    ((1 : Nat) ≤ 2 ∧ (2 : Nat) ≤ 4 ∧
      (∀ j, 1 ≤ j → j < 2 →
        (initStep (failingBus 2) ⟨false, true, true⟩
          lc709204f_apa_adjustment_t.LC709204F_APA_500MAH
          lc709204f_battery_profile_t.LC709204F_BATTERY_PROFILE_3_7_V
          ((fun _ => ⟨0, []⟩ : Nat → Port Nat) (Driver.new 0)._wire) j).1 = true) ∧
      (initStep (failingBus 2) ⟨false, true, true⟩
        lc709204f_apa_adjustment_t.LC709204F_APA_500MAH
        lc709204f_battery_profile_t.LC709204F_BATTERY_PROFILE_3_7_V
        ((fun _ => ⟨0, []⟩ : Nat → Port Nat) (Driver.new 0)._wire) 2).1 = false) ∧
    (init (failingBus 2) ⟨false, true, true⟩ (Driver.new 0)
      lc709204f_apa_adjustment_t.LC709204F_APA_500MAH
      lc709204f_battery_profile_t.LC709204F_BATTERY_PROFILE_3_7_V 0
      (fun _ => ⟨0, []⟩)).1 = false :=
  have hprev : ∀ j, 1 ≤ j → j < 2 →
      (initStep (failingBus 2) ⟨false, true, true⟩
        lc709204f_apa_adjustment_t.LC709204F_APA_500MAH
        lc709204f_battery_profile_t.LC709204F_BATTERY_PROFILE_3_7_V
        ((fun _ => ⟨0, []⟩ : Nat → Port Nat) (Driver.new 0)._wire) j).1 = true := by
    intro j h1 h2
    have hj : j = 1 := by omega
    subst hj
    decide
  ⟨⟨by decide, by decide, hprev, by decide⟩,
    (init_short_circuits (failingBus 2) ⟨false, true, true⟩ (Driver.new 0)
      lc709204f_apa_adjustment_t.LC709204F_APA_500MAH
      lc709204f_battery_profile_t.LC709204F_BATTERY_PROFILE_3_7_V 0
      (fun _ => ⟨0, []⟩) 2 (by decide) (by decide) hprev (by decide)).1⟩

/-! ### Temperatures, current direction, thermistors -/

theorem getCellTemperature_eq (w : TwoWire σ) (d : StopDefaults) (p : Port σ) :
    getCellTemperature w d p
      = (((map ((readWord w d LC709204F_REG_CELL_TEMPERATURE_TSENSE1 0 p).2.1 : Int)
            0x980 0xDCC (-300) 800 : Int) : ℚ) / 10,
          (readWord w d LC709204F_REG_CELL_TEMPERATURE_TSENSE1 0 p).2.2) := rfl

theorem getAmbientTemperature_eq (w : TwoWire σ) (d : StopDefaults) (p : Port σ) :
    getAmbientTemperature w d p
      = (((map ((readWord w d LC709204F_REG_AMBIENT_TEMPERATURE_TSENSE2 0 p).2.1 : Int)
            0x980 0xDCC (-300) 800 : Int) : ℚ) / 10,
          (readWord w d LC709204F_REG_AMBIENT_TEMPERATURE_TSENSE2 0 p).2.2) := rfl

/-- C14: temperature known points.  `getCellTemperature` returns
`map(raw, 0x980, 0xDCC, -300, 800) / 10` of the raw register value it read, and this
conversion gives -30 for raw 0x0980, 80 for raw 0x0DCC and 25 for raw 0x0BA6. -/
theorem temperature_known_points (w : TwoWire σ) (d : StopDefaults) (p : Port σ) :
    (getCellTemperature w d p).1
      = ((map ((getCellTemperatureTSENSE1 w d p).1 : Int) 0x980 0xDCC (-300) 800 : Int) : ℚ)
          / 10 ∧
    ((map 0x0980 0x980 0xDCC (-300) 800 : Int) : ℚ) / 10 = -30 ∧
    ((map 0x0DCC 0x980 0xDCC (-300) 800 : Int) : ℚ) / 10 = 80 ∧
    ((map 0x0BA6 0x980 0xDCC (-300) 800 : Int) : ℚ) / 10 = 25 := by
  have h1 : map 0x0980 0x980 0xDCC (-300) 800 = -300 := by decide
  have h2 : map 0x0DCC 0x980 0xDCC (-300) 800 = 800 := by decide
  have h3 : map 0x0BA6 0x980 0xDCC (-300) 800 = 250 := by decide
  refine ⟨rfl, ?_, ?_, ?_⟩
  · rw [h1]; norm_num
  · rw [h2]; norm_num
  · rw [h3]; norm_num

theorem readWord_unaccepted (d : StopDefaults) (c data : Nat) (p : Port (List Int)) :
    readWord (replayBus 0 0 0) d c data p
      = (false, data, (commandWritten (replayBus 0 0 0) c p).2) := by
  rw [readWord_eq]
  rfl

/-- C16: on a bus where the register read fails, `getCellTemperature()` and
`getAmbientTemperature()` return `map(0, 0x980, 0xDCC, -300, 800) / 10 = -273.2`, which is
below the documented range of -30 to 80. -/
theorem temperature_getters_out_of_range :
    (getCellTemperature (replayBus 0 0 0) ⟨false, true, true⟩ ⟨[], []⟩).1 = -2732 / 10 ∧
    (getAmbientTemperature (replayBus 0 0 0) ⟨false, true, true⟩ ⟨[], []⟩).1 = -2732 / 10 ∧
    ¬ ((-30 : ℚ) ≤ (getCellTemperature (replayBus 0 0 0) ⟨false, true, true⟩ ⟨[], []⟩).1) := by
  have hm : map ((0 : Nat) : Int) 0x980 0xDCC (-300) 800 = -2732 := by decide
  have h1 : (getCellTemperature (replayBus 0 0 0) ⟨false, true, true⟩ ⟨[], []⟩).1
      = -2732 / 10 := by
    rw [getCellTemperature_eq, readWord_unaccepted]
    simp only [hm]
    norm_num
  have h2 : (getAmbientTemperature (replayBus 0 0 0) ⟨false, true, true⟩ ⟨[], []⟩).1
      = -2732 / 10 := by
    rw [getAmbientTemperature_eq, readWord_unaccepted]
    simp only [hm]
    norm_num
  refine ⟨h1, h2, ?_⟩
  rw [h1]
  norm_num

theorem current_direction_val_lt (m : lc709204f_current_direction_t) : m.val < 65536 := by
  cases m <;> simp [lc709204f_current_direction_t.val]

/-- C17: for each of the three modes `m`, `setCurrentDirection(m)` hands the bus one write
whose payload starts with the register address 0x04 (`LC709204F_REG_BEFORE_RSOC`), not with
0x0A (`LC709204F_REG_CURRENT_DIRECTION`), the register whose address
`getCurrentDirection()` writes before its read. -/
theorem setCurrentDirection_writes_before_rsoc (w : TwoWire σ) (d : StopDefaults)
    (m : lc709204f_current_direction_t) (p : Port σ) :
    callsSince p.log.length (setCurrentDirection w d m p).2
      = [WireCall.beginTransmission 0x0B,
          WireCall.write [0x04, m.val &&& 0xFF, m.val >>> 8,
            crc8 [0x16, 0x04, m.val &&& 0xFF, m.val >>> 8] 4]]
        ++ (if (frameWritten w 0x04 m.val p).1 = 4
              then [WireCall.endTransmission d.i2cWrite] else []) ∧
    (callsSince p.log.length (getCurrentDirection w d p).2).take 2
      = [WireCall.beginTransmission 0x0B, WireCall.write [0x0A]] := by
  constructor
  · rw [setCurrentDirection_eq]
    apply callsSince_append
    rw [writeWord_false_log w d _ _ _ (current_direction_val_lt m)]
    rfl
  · rw [getCurrentDirection_eq, callsSince_append p _ _ (readWord_log w d _ 0 p)]
    rfl

theorem initStep_log_begin (w : TwoWire σ) (d : StopDefaults)
    (apa : lc709204f_apa_adjustment_t) (profile : lc709204f_battery_profile_t)
    (p : Port σ) (k : Nat) :
    ∃ rest, (initStep w d apa profile p k).2.log = p.log ++ WireCall.begin :: rest := by
  induction k with
  | zero => exact ⟨[], rfl⟩
  | succ k ih =>
    obtain ⟨rest, hrest⟩ := ih
    simp only [initStep]
    rw [writeWord_log, hrest]
    exact ⟨_, by rw [List.append_assoc, List.cons_append]⟩

theorem init_port (w : TwoWire σ) (d : StopDefaults) (self : Driver)
    (apa : lc709204f_apa_adjustment_t) (profile : lc709204f_battery_profile_t)
    (wire : Nat) (buses : Nat → Port σ) :
    ∃ k, (init w d self apa profile wire buses).2
      = Function.update buses self._wire (initStep w d apa profile (buses self._wire) k).2 := by
  rw [init_eq]
  split_ifs
  · exact ⟨1, rfl⟩
  · exact ⟨2, rfl⟩
  · exact ⟨3, rfl⟩
  · exact ⟨4, rfl⟩
  · exact ⟨4, rfl⟩

/-- C18: `init(apa, profile, wire)` on a driver constructed with bus 0, called with
`wire` = bus 1: bus 1 is left untouched (no `begin`, no write), and the port of bus 0, the
constructor's bus, receives `begin` and the traffic that follows. -/
theorem init_ignores_wire_argument (w : TwoWire σ) (d : StopDefaults)
    (apa : lc709204f_apa_adjustment_t) (profile : lc709204f_battery_profile_t)
    (buses : Nat → Port σ) :
    (init w d (Driver.new 0) apa profile 1 buses).2 1 = buses 1 ∧
    ∃ rest, callsSince (buses 0).log.length ((init w d (Driver.new 0) apa profile 1 buses).2 0)
      = WireCall.begin :: rest := by
  obtain ⟨k, hk⟩ := init_port w d (Driver.new 0) apa profile 1 buses
  obtain ⟨rest, hrest⟩ := initStep_log_begin w d apa profile (buses 0) k
  rw [hk]
  refine ⟨?_, rest, ?_⟩
  · exact Function.update_noteq (by decide) _ _
  · apply callsSince_append
    show (Function.update buses 0 (initStep w d apa profile (buses 0) k).2 0).log = _
    rw [Function.update_same]
    exact hrest

/-- C19: `setThermistors(tsense1, tsense2)` writes to the status-bit register 0x16 exactly
the value `(tsense1 ? 1 : 0) | (tsense2 ? 2 : 0)`: bit 0 is set iff `tsense1`, bit 1 iff
`tsense2`, the value is at most 3, and the result is the result of that single write. -/
theorem setThermistors_value (w : TwoWire σ) (d : StopDefaults) (tsense1 tsense2 : Bool)
    (p : Port σ) :
    setThermistors w d tsense1 tsense2 p
      = writeWord w d 0x16 ((if tsense1 = true then 1 else 0) ||| (if tsense2 = true then 2 else 0))
          p ∧
    ((if tsense1 = true then 1 else 0) ||| (if tsense2 = true then 2 else 0) : Nat).testBit 0
      = tsense1 ∧
    ((if tsense1 = true then 1 else 0) ||| (if tsense2 = true then 2 else 0) : Nat).testBit 1
      = tsense2 ∧
    ((if tsense1 = true then 1 else 0) ||| (if tsense2 = true then 2 else 0) : Nat) ≤ 3 ∧
    callsSince p.log.length (setThermistors w d tsense1 tsense2 p).2
      = [WireCall.beginTransmission 0x0B,
          WireCall.write (framePayload 0x16
            ((if tsense1 = true then 1 else 0) ||| (if tsense2 = true then 2 else 0)))]
        ++ (if (frameWritten w 0x16
                ((if tsense1 = true then 1 else 0) ||| (if tsense2 = true then 2 else 0)) p).1 = 4
              then [WireCall.endTransmission d.i2cWrite] else []) := by
  have hdef : setThermistors w d tsense1 tsense2 p
      = writeWord w d 0x16
          ((if tsense1 = true then 1 else 0) ||| (if tsense2 = true then 2 else 0)) p := by
    cases tsense1 <;> cases tsense2 <;> rfl
  have hlt : ((if tsense1 = true then 1 else 0) ||| (if tsense2 = true then 2 else 0) : Nat)
      < 65536 := by
    cases tsense1 <;> cases tsense2 <;> decide
  refine ⟨hdef, ?_, ?_, ?_, ?_⟩
  · cases tsense1 <;> cases tsense2 <;> decide
  · cases tsense1 <;> cases tsense2 <;> decide
  · cases tsense1 <;> cases tsense2 <;> decide
  · rw [hdef]
    apply callsSince_append
    exact writeWord_false_log w d _ _ p hlt

/-! ### 32-bit accessors -/

theorem readWord_value_lt (w : TwoWire σ) (d : StopDefaults) (c : Nat) (p : Port σ) :
    (readWord w d c 0 p).2.1 < 65536 := by
  by_cases h : (readWord w d c 0 p).1 = true
  · exact readWord_true_lt w d c 0 p h
  · rw [readWord_false_data w d c 0 p (by simpa using h)]
    norm_num

theorem joinWords_eq (lower higher : Nat) (hl : lower < 65536) (hh : higher < 65536) :
    joinWords lower higher = (higher <<< 16) + lower := by
  simp only [joinWords, toUInt32, wrapInt32, Nat.shiftLeft_eq]
  omega

theorem toUInt16_natCast (b : Nat) : toUInt16 (b : Int) = b % 65536 := by
  simp only [toUInt16]
  omega

theorem read32_eq (w : TwoWire σ) (d : StopDefaults) (a1 a2 : Nat) (p : Port σ) :
    joinWords (readWord w d a1 0 p).2.1 (readWord w d a2 0 (readWord w d a1 0 p).2.2).2.1
      = ((readWord w d a2 0 (readWord w d a1 0 p).2.2).2.1 <<< 16)
          + (readWord w d a1 0 p).2.1 :=
  joinWords_eq _ _ (readWord_value_lt w d a1 p) (readWord_value_lt w d a2 _)

/-- C20: each 32-bit getter reads two adjacent registers `addr`, `addr + 1` (0x24/0x25,
0x26/0x27, 0x28/0x29, 0x36/0x37), the lower half from `addr`, and returns
`(higher << 16) + lower` of the two values read; each 32-bit setter writes `(uint16_t) b`
to `addr` and then `(uint16_t)(b >> 16)` to `addr + 1` of the same pair. -/
theorem words32_follow_spec (w : TwoWire σ) (d : StopDefaults) (b : Nat) (p : Port σ) :
    getTotalRunTime w d p = specRead32 w d 0x24 p ∧
    getAccumulatedTemperature w d p = specRead32 w d 0x26 p ∧
    getAccumulatedRSOC w d p = specRead32 w d 0x28 p ∧
    getUserId w d p = specRead32 w d 0x36 p ∧
    setTotalRunTime w d b p = specWrite32 w d 0x24 b p ∧
    setAccumulatedTemperature w d b p = specWrite32 w d 0x26 b p ∧
    setAccumulatedRSOC w d b p = specWrite32 w d 0x28 b p := by
  have hlo := toUInt16_natCast b
  have hhi := toUInt16_natCast (b >>> 16)
  refine ⟨?_, ?_, ?_, ?_, ?_, ?_, ?_⟩
  · unfold getTotalRunTime specRead32
    simp only [read32_eq]
    rfl
  · unfold getAccumulatedTemperature specRead32
    simp only [read32_eq]
    rfl
  · unfold getAccumulatedRSOC specRead32
    simp only [read32_eq]
    rfl
  · unfold getUserId specRead32
    simp only [read32_eq]
    rfl
  · unfold setTotalRunTime specWrite32
    simp only [hlo, hhi]
    rfl
  · unfold setAccumulatedTemperature specWrite32
    simp only [hlo, hhi]
    rfl
  · unfold setAccumulatedRSOC specWrite32
    simp only [hlo, hhi]
    rfl

/-! ### Checksum residue, failed reads, the temperature map -/

theorem crc8Loop_append (l1 l2 : List Nat) (crc : Nat) :
    crc8Loop (l1.length + l2.length) (l1 ++ l2) crc
      = crc8Loop l2.length l2 (crc8Loop l1.length l1 crc) := by
  induction l1 generalizing crc with
  | nil => simp [crc8Loop]
  | cons b t ih =>
    have hlen : (b :: t).length + l2.length = (t.length + l2.length) + 1 := by
      simp only [List.length_cons]
      omega
    rw [hlen]
    simp only [List.cons_append, List.length_cons, crc8Loop, List.tail_cons, List.headD_cons]
    exact ih _

theorem crc8Bits_eight_zero : crc8Bits 8 0 = 0 := by decide

theorem crc8_six (r0 r1 r2 r3 r4 r5 : Nat) :
    crc8 [r0, r1, r2, r3, r4, r5] 6 = crc8Bits 8 (crc8 [r0, r1, r2, r3, r4] 5 ^^^ r5) := rfl

/-- C21: appending the checksum gives a zero checksum: `crc8(m ++ [crc8(m)]) = 0x00` for
every byte sequence `m`; hence, for a reply buffer of six bytes, the acceptance test
`crc8(reply[0..4]) == reply[5]` of `readWord` holds exactly when `crc8` over all six bytes
is 0. -/
theorem crc8_residue_zero (m : List Nat) (r0 r1 r2 r3 r4 r5 : Nat) (h5 : r5 < 256) :
    crc8 (m ++ [crc8 m m.length]) (m.length + 1) = 0x00 ∧
    (crc8 [r0, r1, r2, r3, r4] 5 = r5 ↔ crc8 [r0, r1, r2, r3, r4, r5] 6 = 0x00) := by
  constructor
  · have h := crc8Loop_append m [crc8 m m.length] 0
    simp only [List.length_singleton] at h
    unfold crc8 at h ⊢
    rw [h]
    simp only [crc8Loop, List.headD_cons, Nat.xor_self]
    exact crc8Bits_eight_zero
  · rw [crc8_six]
    constructor
    · intro h
      rw [h, Nat.xor_self]
      exact crc8Bits_eight_zero
    · intro h
      have hx : crc8 [r0, r1, r2, r3, r4] 5 ^^^ r5 < 256 :=
        xor_lt_256 _ _ (crc8_lt _ _) h5
      have h0 := crc8Bits_injective 8 _ 0 hx (by norm_num) (h.trans crc8Bits_eight_zero.symm)
      exact Nat.xor_eq_zero.mp h0

set_option maxRecDepth 100000 in
theorem crc8_residue_zero_witness :
    (0xF6 : Nat) < 256 ∧
    crc8 ([0x16, 0x04, 0x00, 0x00] ++ [crc8 [0x16, 0x04, 0x00, 0x00]
        [0x16, 0x04, 0x00, 0x00].length]) ([0x16, 0x04, 0x00, 0x00].length + 1) = 0x00 ∧
    (crc8 [0x16, 0x0C, 0x17, 0x34, 0x12] 5 = 0xF6
      ↔ crc8 [0x16, 0x0C, 0x17, 0x34, 0x12, 0xF6] 6 = 0x00) :=
  ⟨by decide, crc8_residue_zero [0x16, 0x04, 0x00, 0x00] 0x16 0x0C 0x17 0x34 0x12 0xF6
    (by decide)⟩

theorem getRSOC_eq2 (w : TwoWire σ) (d : StopDefaults) (p : Port σ) :
    (getRSOC w d p).1 = (readWord w d LC709204F_REG_RSOC 0 p).2.1 := rfl

theorem joinWords_zero_right (lower : Nat) (hl : lower < 65536) : joinWords lower 0 = lower := by
  rw [joinWords_eq lower 0 hl (by norm_num)]
  simp

theorem joinWords_zero_left (higher : Nat) (hh : higher < 65536) :
    joinWords 0 higher = higher * 0x10000 := by
  rw [joinWords_eq 0 higher (by norm_num) hh, Nat.shiftLeft_eq]
  norm_num

/-- C22: a failed register read reads as zero.  When its `readWord` fails, each of
`getTimeToEmpty`, `getCellVoltage`, `getRSOC` returns 0, and in every case it returns the
value `readWord` left in `val` (so 0 also after a successful read of 0x0000).  A 32-bit
getter whose reads do not both succeed returns `higher * 0x10000 + lower` with the failed
half taken as 0: lower read ok with value `L` and higher read failed gives `L`; lower read
failed and higher read ok with value `H` gives `H * 0x10000`. -/
theorem failed_read_reads_zero (w : TwoWire σ) (d : StopDefaults) (p : Port σ) :
    ((readWord w d LC709204F_REG_TIME_TO_EMPTY 0 p).1 = false →
      (getTimeToEmpty w d p).1 = 0) ∧
    ((readWord w d LC709204F_REG_CELL_VOLTAGE 0 p).1 = false →
      (getCellVoltage w d p).1 = 0) ∧
    ((readWord w d LC709204F_REG_RSOC 0 p).1 = false → (getRSOC w d p).1 = 0) ∧
    (getTimeToEmpty w d p).1 = (readWord w d LC709204F_REG_TIME_TO_EMPTY 0 p).2.1 ∧
    (getCellVoltage w d p).1 = (readWord w d LC709204F_REG_CELL_VOLTAGE 0 p).2.1 ∧
    (getRSOC w d p).1 = (readWord w d LC709204F_REG_RSOC 0 p).2.1 ∧
    ((readWord w d LC709204F_REG_ACCUMULATED_TEMPERATURE_LOWER_16BIT 0 p).1 = true →
      (readWord w d LC709204F_REG_ACCUMULATED_TEMPERATURE_HIGHER_16BIT 0 (readWord w d LC709204F_REG_ACCUMULATED_TEMPERATURE_LOWER_16BIT 0 p).2.2).1 = false →
      (getAccumulatedTemperature w d p).1 = (readWord w d LC709204F_REG_ACCUMULATED_TEMPERATURE_LOWER_16BIT 0 p).2.1) ∧
    ((readWord w d LC709204F_REG_ACCUMULATED_TEMPERATURE_LOWER_16BIT 0 p).1 = false →
      (readWord w d LC709204F_REG_ACCUMULATED_TEMPERATURE_HIGHER_16BIT 0 (readWord w d LC709204F_REG_ACCUMULATED_TEMPERATURE_LOWER_16BIT 0 p).2.2).1 = true →
      (getAccumulatedTemperature w d p).1
        = (readWord w d LC709204F_REG_ACCUMULATED_TEMPERATURE_HIGHER_16BIT 0 (readWord w d LC709204F_REG_ACCUMULATED_TEMPERATURE_LOWER_16BIT 0 p).2.2).2.1 * 0x10000) := by
  have hacc : (getAccumulatedTemperature w d p).1
      = joinWords (readWord w d LC709204F_REG_ACCUMULATED_TEMPERATURE_LOWER_16BIT 0 p).2.1
          (readWord w d LC709204F_REG_ACCUMULATED_TEMPERATURE_HIGHER_16BIT 0
            (readWord w d LC709204F_REG_ACCUMULATED_TEMPERATURE_LOWER_16BIT 0 p).2.2).2.1 := by
    simp only [getAccumulatedTemperature]
  refine ⟨fun h => ?_, fun h => ?_, fun h => ?_, rfl, rfl, rfl, fun h1 h2 => ?_,
    fun h1 h2 => ?_⟩
  · rw [getTimeToEmpty_eq]
    exact readWord_false_data w d _ 0 p h
  · rw [getCellVoltage_eq]
    exact readWord_false_data w d _ 0 p h
  · rw [getRSOC_eq2]
    exact readWord_false_data w d _ 0 p h
  · rw [hacc, readWord_false_data w d _ 0 _ h2]
    exact joinWords_zero_right _ (readWord_true_lt w d _ 0 p h1)
  · rw [hacc, readWord_false_data w d _ 0 p h1]
    exact joinWords_zero_left _ (readWord_value_lt w d _ _)

theorem failed_read_reads_zero_witness :
    (readWord (replayBus 0 0 0) ⟨false, true, true⟩ LC709204F_REG_TIME_TO_EMPTY 0
      ⟨[], []⟩).1 = false ∧
    (getTimeToEmpty (replayBus 0 0 0) ⟨false, true, true⟩ ⟨[], []⟩).1 = 0 :=
  ⟨by rw [readWord_unaccepted],
    (failed_read_reads_zero (replayBus 0 0 0) ⟨false, true, true⟩ ⟨[], []⟩).1
      (by rw [readWord_unaccepted])⟩

theorem wrapInt32_of_range (x : Int) (h1 : -2147483648 ≤ x) (h2 : x ≤ 2147483647) :
    wrapInt32 x = x := by
  unfold wrapInt32
  omega

theorem map_raw_to_tenths (r : Nat) (hr : r < 65536) :
    map (r : Int) 0x980 0xDCC (-300) 800 = (r : Int) - 2732 := by
  have e1 : wrapInt32 ((r : Int) - 0x980) = (r : Int) - 0x980 :=
    wrapInt32_of_range _ (by omega) (by omega)
  have e2 : wrapInt32 (800 - (-300)) = 1100 := by decide
  have e3 : wrapInt32 (((r : Int) - 0x980) * 1100) = ((r : Int) - 0x980) * 1100 :=
    wrapInt32_of_range _ (by omega) (by omega)
  have e4 : wrapInt32 (0xDCC - 0x980) = 1100 := by decide
  have e5 : Int.tdiv (((r : Int) - 0x980) * 1100) 1100 = (r : Int) - 0x980 :=
    Int.mul_tdiv_cancel _ (by norm_num)
  unfold map
  rw [e1, e2, e3, e4, e5, e1, wrapInt32_of_range _ (by omega) (by omega)]
  omega

theorem map_tenths_to_raw (t : Nat) (ht : t < 65536) :
    map (t : Int) (-300) 800 0x980 0xDCC = (t : Int) + 2732 := by
  have e1 : wrapInt32 ((t : Int) - (-300)) = (t : Int) + 300 := by
    rw [wrapInt32_of_range _ (by omega) (by omega)]
    omega
  have e2 : wrapInt32 (0xDCC - 0x980) = 1100 := by decide
  have e3 : wrapInt32 (((t : Int) + 300) * 1100) = ((t : Int) + 300) * 1100 :=
    wrapInt32_of_range _ (by omega) (by omega)
  have e4 : wrapInt32 (800 - (-300)) = 1100 := by decide
  have e5 : Int.tdiv (((t : Int) + 300) * 1100) 1100 = (t : Int) + 300 :=
    Int.mul_tdiv_cancel _ (by norm_num)
  have e6 : wrapInt32 ((t : Int) + 300) = (t : Int) + 300 :=
    wrapInt32_of_range _ (by omega) (by omega)
  unfold map
  rw [e1, e2, e3, e4, e5, e6, wrapInt32_of_range _ (by omega) (by omega)]
  omega

/-- C23: the temperature map has unit slope and is exact.  For every 16-bit raw value `r`,
`map(r, 0x980, 0xDCC, -300, 800)` in 32-bit signed arithmetic equals `r - 2732`: the
product `(r - 0x980) * (800 - (-300))` stays inside the signed 32-bit range and is a
multiple of `0xDCC - 0x980`, so the division does not truncate.  For every 16-bit `t`,
`map(t, -300, 800, 0x980, 0xDCC)` equals `t + 2732`, and the setter writes it reduced
modulo 2^16. -/
theorem map_unit_slope (w : TwoWire σ) (d : StopDefaults) (p : Port σ) (r t : Nat)
    (hr : r < 65536) (ht : t < 65536) :
    map (r : Int) 0x980 0xDCC (-300) 800 = (r : Int) - 2732 ∧
    (-2147483648 ≤ ((r : Int) - 0x980) * (800 - (-300)) ∧
      ((r : Int) - 0x980) * (800 - (-300)) ≤ 2147483647) ∧
    ((0xDCC - 0x980 : Int) ∣ ((r : Int) - 0x980) * (800 - (-300))) ∧
    map (t : Int) (-300) 800 0x980 0xDCC = (t : Int) + 2732 ∧
    (-2147483648 ≤ ((t : Int) - (-300)) * (0xDCC - 0x980) ∧
      ((t : Int) - (-300)) * (0xDCC - 0x980) ≤ 2147483647) ∧
    setCellTemperature w d t p
      = writeWord w d LC709204F_REG_CELL_TEMPERATURE_TSENSE1 ((t + 2732) % 65536) p := by
  refine ⟨map_raw_to_tenths r hr, ⟨by omega, by omega⟩, ⟨(r : Int) - 0x980, by ring⟩,
    map_tenths_to_raw t ht, ⟨by omega, by omega⟩, ?_⟩
  have hv : toUInt16 (map (t : Int) (-300) 800 0x980 0xDCC) = (t + 2732) % 65536 := by
    rw [map_tenths_to_raw t ht]
    simp only [toUInt16]
    omega
  simp only [setCellTemperature, hv]

theorem map_unit_slope_witness :
    ((0x0BA6 : Nat) < 65536 ∧ (250 : Nat) < 65536) ∧
    map ((0x0BA6 : Nat) : Int) 0x980 0xDCC (-300) 800 = ((0x0BA6 : Nat) : Int) - 2732 :=
  ⟨⟨by decide, by decide⟩,
    (map_unit_slope (replayBus 4 0 0) ⟨false, true, true⟩ ⟨[], []⟩ 0x0BA6 250
      (by decide) (by decide)).1⟩

/-! ### What the caller sees of a failed transaction -/

theorem valueOrZero_eq (w : TwoWire σ) (d : StopDefaults) (c : Nat) (p : Port σ) :
    (readWord w d c 0 p).2.1 = valueOrZero w d c p := by
  unfold valueOrZero
  by_cases h : (readWord w d c 0 p).1 = true
  · rw [if_pos h]
  · rw [if_neg h]
    exact readWord_false_data w d c 0 p (by simpa using h)

theorem temperature_of_valueOrZero (w : TwoWire σ) (d : StopDefaults) (c : Nat) (p : Port σ) :
    ((map ((readWord w d c 0 p).2.1 : Int) 0x980 0xDCC (-300) 800 : Int) : ℚ) / 10
      = ((map (valueOrZero w d c p : Int) 0x980 0xDCC (-300) 800 : Int) : ℚ) / 10 := by
  rw [valueOrZero_eq]

theorem long_of_valueOrZero (w : TwoWire σ) (d : StopDefaults) (lo hi : Nat) (p : Port σ) :
    joinWords (readWord w d lo 0 p).2.1 (readWord w d hi 0 (readWord w d lo 0 p).2.2).2.1
      = valueOrZero w d hi (readWord w d lo 0 p).2.2 * 0x10000 + valueOrZero w d lo p := by
  rw [read32_eq, valueOrZero_eq, valueOrZero_eq, Nat.shiftLeft_eq]

theorem and_of_short_circuit (r1 r2 : Bool × Port σ) :
    (if r1.1 = false then (false, r1.2) else r2).1 = (r1.1 && r2.1) := by
  cases h : r1.1 <;> simp

theorem long_setter_result (w : TwoWire σ) (d : StopDefaults) (lo hi b : Nat) (p : Port σ) :
    (if (writeWord w d lo (toUInt16 (b : Int)) p).1 = false
        then (false, (writeWord w d lo (toUInt16 (b : Int)) p).2)
        else writeWord w d hi (toUInt16 ((b >>> 16 : Nat) : Int))
          (writeWord w d lo (toUInt16 (b : Int)) p).2).1
      = ((writeWord w d lo (b % 65536) p).1
          && (writeWord w d hi ((b >>> 16) % 65536) (writeWord w d lo (b % 65536) p).2).1) := by
  rw [and_of_short_circuit, toUInt16_natCast b, toUInt16_natCast (b >>> 16)]

/-- C11 (amended): a failed write is visible in the return value, a failed read is not.
Every setter returns the result of its write transaction (`writeWord`, true exactly when
the bus accepted the 4 payload bytes and reported completion status 0); a 32-bit setter
returns true exactly when both of its writes succeeded, and `init` exactly when all four
did.  Every getter returns only a value computed from `val`, which holds the register
content after a successful read and 0 after a failed one: the `uint16_t` getters return it,
the 32-bit getters return `higher * 0x10000 + lower` of two such values, `getITE` returns it
divided by 10 and the temperature getters return `map(val, 0x980, 0xDCC, -300, 800) / 10`;
`readWord`'s result is dropped. -/
theorem accessor_failure_signal (w : TwoWire σ) (d : StopDefaults) :
    (∀ c v p, (writeWord w d c v p).1 = true
      ↔ (frameWritten w c v p).1 = 4 ∧ (frameEnded w d c v p).1 = 0) ∧
    (∀ s ∈ wordSetters w d, ∀ b p, (s.1 b p).1 = (writeWord w d s.2 b p).1) ∧
    (∀ s ∈ temperatureSetters w d, ∀ t p,
      (s.1 t p).1
        = (writeWord w d s.2 (toUInt16 (map (t : Int) (-300) 800 0x980 0xDCC)) p).1) ∧
    (∀ s ∈ longSetters w d, ∀ b p,
      (s.1 b p).1
        = ((writeWord w d s.2.1 (b % 65536) p).1
            && (writeWord w d s.2.2 ((b >>> 16) % 65536)
                (writeWord w d s.2.1 (b % 65536) p).2).1)) ∧
    (∀ m p, (setBeforeRSOC w d m p).1 = (writeWord w d LC709204F_REG_BEFORE_RSOC m.val p).1) ∧
    (∃ c, ∀ m p, (setCurrentDirection w d m p).1 = (writeWord w d c m.val p).1) ∧
    (∀ m p, (setAPA w d m p).1 = (writeWord w d LC709204F_REG_APA m.val p).1) ∧
    (∀ m p, (setChangeOfTheParameter w d m p).1
      = (writeWord w d LC709204F_REG_CHANGE_OF_THE_PARAMETER m.val p).1) ∧
    (∀ m p, (setICPowerMode w d m p).1 = (writeWord w d LC709204F_REG_IC_POWER_MODE m.val p).1) ∧
    (∀ p, (setInitialRSOC w d p).1
      = (writeWord w d LC709204F_REG_INITIAL_RSOC LC709204_INITIALIZE_RSOC_PARAM p).1) ∧
    (∀ t1 t2 p, (setThermistors w d t1 t2 p).1
      = (writeWord w d LC709204F_REG_STATUS_BIT
          ((if t1 = true then 1 else 0) ||| (if t2 = true then 2 else 0)) p).1) ∧
    (∀ self apa profile wire buses,
      (init w d self apa profile wire buses).1 = true
        ↔ ∀ k, 1 ≤ k → k ≤ 4 → (initStep w d apa profile (buses self._wire) k).1 = true) ∧
    (∀ g ∈ wordGetters w d, ∀ p, (g.1 p).1 = valueOrZero w d g.2 p) ∧
    (∀ g ∈ longGetters w d, ∀ p,
      (g.1 p).1
        = valueOrZero w d g.2.2 (readWord w d g.2.1 0 p).2.2 * 0x10000
          + valueOrZero w d g.2.1 p) ∧
    (∀ p, (getITE w d p).1 = (valueOrZero w d LC709204F_REG_ITE p : ℚ) / 10) ∧
    (∀ g ∈ temperatureGetters w d, ∀ p,
      (g.1 p).1
        = ((map (valueOrZero w d g.2 p : Int) 0x980 0xDCC (-300) 800 : Int) : ℚ) / 10) := by
  refine ⟨fun c v p => writeWord_true_iff w d c v p, ?_, ?_, ?_, fun _ _ => rfl,
    ⟨_, fun _ _ => rfl⟩, fun _ _ => rfl, fun _ _ => rfl, fun _ _ => rfl, fun _ => rfl, ?_,
    fun self apa profile wire buses => init_true_iff w d self apa profile wire buses,
    ?_, ?_, ?_, ?_⟩
  · intro s hs
    simp only [wordSetters, List.mem_cons, List.not_mem_nil, or_false] at hs
    rcases hs with rfl | rfl | rfl | rfl | rfl | rfl | rfl | rfl | rfl | rfl | rfl | rfl
      | rfl | rfl | rfl | rfl | rfl <;> exact fun _ _ => rfl
  · intro s hs
    simp only [temperatureSetters, List.mem_cons, List.not_mem_nil, or_false] at hs
    rcases hs with rfl | rfl | rfl | rfl | rfl <;> exact fun _ _ => rfl
  · intro s hs
    simp only [longSetters, List.mem_cons, List.not_mem_nil, or_false] at hs
    rcases hs with rfl | rfl | rfl <;> exact fun b p => long_setter_result w d _ _ b p
  · intro t1 t2 p
    cases t1 <;> cases t2 <;> rfl
  · intro g hg
    simp only [wordGetters, List.mem_cons, List.not_mem_nil, or_false] at hg
    rcases hg with rfl | rfl | rfl | rfl | rfl | rfl | rfl | rfl | rfl | rfl | rfl | rfl
      | rfl | rfl | rfl | rfl | rfl | rfl | rfl | rfl | rfl | rfl | rfl | rfl | rfl | rfl
      | rfl | rfl | rfl <;> exact fun p => valueOrZero_eq w d _ p
  · intro g hg
    simp only [longGetters, List.mem_cons, List.not_mem_nil, or_false] at hg
    rcases hg with rfl | rfl | rfl | rfl <;> intro p <;>
      simp only [getTotalRunTime, getAccumulatedTemperature, getAccumulatedRSOC, getUserId] <;>
      exact long_of_valueOrZero w d _ _ p
  · intro p
    show ((readWord w d LC709204F_REG_ITE 0 p).2.1 : ℚ) / 10 = _
    rw [valueOrZero_eq]
  · intro g hg
    simp only [temperatureGetters, List.mem_cons, List.not_mem_nil, or_false] at hg
    rcases hg with rfl | rfl | rfl | rfl | rfl | rfl <;>
      exact fun p => temperature_of_valueOrZero w d _ p

end Transactions

end LC709204F
